import Mathlib

/-!
Verification of the sweep-orchestration and outcome-classification subsystem
of the Lennard-Jonesium repository, as a shallow embedding of the Python
sources under `src/python/lennardjonesium/`.

Modelling conventions:
* Python `int` is embedded as `Int` (arbitrary precision, as in Python);
* Python `float` is embedded as `Rat` (exact arithmetic; the repository's
  numeric code performs only field operations, whose exactness caveats are
  recorded where relevant);
* Python strings are embedded as `String` / `List Char`;
* Python exceptions are embedded as `Except PyError`;
* mutable objects are embedded with an explicit store, with object identity
  made explicit as store addresses.
-/

namespace LJ

/-- The Python exceptions the embedded code can raise. -/
inductive PyError where
  | valueError
  | typeError
  | nameError
  | zeroDivisionError
deriving DecidableEq, Repr

/-! ## Character and number parsing helpers

These model the pieces of the Python standard library the sources lean on:
`str.strip`, `int(str)`, and `str.split(sep, maxsplit=1)`. -/

/-- The whitespace characters removed by Python's `str.strip()`. -/
def isPySpace (c : Char) : Bool :=
  c == ' ' || c == '\t' || c == '\n' || c == '\r' || c == '\x0b' || c == '\x0c'

/-- `str.strip()`: drop leading and trailing whitespace. -/
def stripChars (s : List Char) : List Char :=
  ((s.dropWhile isPySpace).reverse.dropWhile isPySpace).reverse

/-- Numeric value of a decimal digit character. -/
def digitVal (c : Char) : Nat := c.toNat - 48

/-- Value of a big-endian list of decimal digit characters. -/
def natFromDigits (ds : List Char) : Nat :=
  ds.foldl (fun a c => a * 10 + digitVal c) 0

/-- Model of Python `int(s)` for a string `s`: optional surrounding
whitespace, an optional sign, then one or more decimal digits.  `none`
models the `ValueError` that `int` raises on any other input.  (PEP 515
digit-group underscores are not modelled; no string handled by this
development contains one.) -/
def pyIntOfChars (s : List Char) : Option Int :=
  match stripChars s with
  | [] => none
  | c :: ds =>
    if c = '-' then
      if ds ≠ [] ∧ ds.all Char.isDigit then some (-(natFromDigits ds : Int)) else none
    else if c = '+' then
      if ds ≠ [] ∧ ds.all Char.isDigit then some ((natFromDigits ds : Int)) else none
    else
      if (c :: ds).all Char.isDigit then some ((natFromDigits (c :: ds) : Int)) else none

/-- Model of Python `s.split(sep, maxsplit=1)` restricted to the case used by
the sources: splits at the first occurrence of `sep`, returning the text
before it and everything after it; `none` when `sep` does not occur (in which
case Python's two-name unpacking of the one-element result raises
`ValueError`). -/
def splitFirst (sep : List Char) : List Char → Option (List Char × List Char)
  | [] => none
  | c :: rest =>
    if sep.isPrefixOf (c :: rest) then some ([], (c :: rest).drop sep.length)
    else
      match splitFirst sep rest with
      | none => none
      | some (a, b) => some (c :: a, b)

/-! ## `postprocessing/event_log_parser.py` -/

/-- The `SimulationStatus` enumeration of `event_log_parser.py` (exactly
three members; the source has no fourth `Incomplete` member). -/
inductive SimulationStatus where
  | completed
  | equilibration_aborted
  | observation_aborted
deriving DecidableEq, Repr

/-- The attributes accumulated by `EventLogParser` while parsing, with the
initial values the source gives them. -/
structure EventLogParser where
  simulation_status : Option SimulationStatus := none
  equilibration_started : Option Int := none
  equilibration_completed : Option Int := none
  equilibration_time_steps : Option Int := none
  observation_started : Option Int := none
  observation_completed : Option Int := none
  observation_time_steps : Option Int := none
  total_time_steps : Int := 0
  temperature_adjustments : List Int := []
  observations_recorded : List Int := []
deriving DecidableEq, Repr

/-- `first, rest = line.split(': ', maxsplit=1); time_step = int(first)`:
a line with no `': '` (the unpacking fails) or whose first part is not an
integer raises `ValueError`. -/
def parseEventLine (line : List Char) : Except PyError (Int × List Char) :=
  match splitFirst ": ".data line with
  | none => .error .valueError
  | some (first, rest) =>
    match pyIntOfChars first with
    | none => .error .valueError
    | some t => .ok (t, rest)

/-- One iteration of the `for line in lines` loop of `EventLogParser._parse`,
with the source's branch order.  `time_step - self.equilibration_started`
(resp. `observation_started`) raises `TypeError` when the `started` field is
still `None`. -/
def parseStep (st : EventLogParser) (line : List Char) :
    Except PyError EventLogParser :=
  match parseEventLine line with
  | .error e => .error e
  | .ok (time_step, rest) =>
    let st := { st with total_time_steps := time_step }
    if ("Phase started".data).isPrefixOf rest then
      if st.equilibration_started = none then
        .ok { st with equilibration_started := some time_step }
      else
        .ok { st with observation_started := some time_step }
    else if ("Phase complete".data).isPrefixOf rest then
      if st.equilibration_completed = none then
        match st.equilibration_started with
        | none => .error .typeError
        | some s =>
          .ok { st with equilibration_completed := some time_step,
                        equilibration_time_steps := some (time_step - s) }
      else
        match st.observation_started with
        | none => .error .typeError
        | some s =>
          .ok { st with observation_completed := some time_step,
                        observation_time_steps := some (time_step - s),
                        simulation_status := some .completed }
    else if ("Temperature".data).isPrefixOf rest then
      .ok { st with temperature_adjustments := st.temperature_adjustments ++ [time_step] }
    else if ("Observation".data).isPrefixOf rest then
      .ok { st with observations_recorded := st.observations_recorded ++ [time_step] }
    else if ("Simulation aborted".data).isPrefixOf rest then
      if st.equilibration_completed = none then
        .ok { st with simulation_status := some .equilibration_aborted }
      else
        .ok { st with simulation_status := some .observation_aborted }
    else
      .ok st

/-- The `for line in lines` loop of `EventLogParser._parse`. -/
def parseLines : EventLogParser → List String → Except PyError EventLogParser
  | st, [] => .ok st
  | st, l :: ls =>
    match parseStep st l.data with
    | .error e => .error e
    | .ok st' => parseLines st' ls

/-- `EventLogParser.__init__` followed by `_parse` on the log's lines. -/
def parseEventLog (lines : List String) : Except PyError EventLogParser :=
  parseLines {} lines

/-- The line is classified by the `'Phase complete'` branch: it parses and
its message starts with `'Phase complete'`. -/
def isCompleteLine (line : String) : Bool :=
  match splitFirst ": ".data line.data with
  | some (_, rest) => ("Phase complete".data).isPrefixOf rest
  | none => false

/-- The line is classified by the `'Simulation aborted'` branch: it parses
and its message starts with `'Simulation aborted'`. -/
def isAbortLine (line : String) : Bool :=
  match splitFirst ": ".data line.data with
  | some (_, rest) => ("Simulation aborted".data).isPrefixOf rest
  | none => false

/-- The number of `'Phase complete'` lines of a log. -/
def completeCount (lines : List String) : Nat :=
  lines.countP isCompleteLine

/-- Python's substring containment `sub in s`. -/
def isSubstring (sub : List Char) : List Char → Bool
  | [] => sub.isEmpty
  | c :: rest => sub.isPrefixOf (c :: rest) || isSubstring sub rest

/-- A line that `parseEventLine` rejects with `ValueError`: it has no
`': '` separator, or its leading part is not an integer. -/
def isMalformedLine (line : String) : Bool :=
  match splitFirst ": ".data line.data with
  | none => true
  | some (first, _) => (pyIntOfChars first).isNone

/-! ## `tools/linspace.py` -/

/-- `tools.linspace`, with Python `float` arithmetic embedded as exact
rational arithmetic.  The list comprehension iterates over `range(points)`,
which is empty for `points ≤ 0` (so no division is evaluated); otherwise a
zero `denominator` raises `ZeroDivisionError` at the first element. -/
def linspace (start stop : ℚ) (points : ℤ) (endpoint : Bool) :
    Except PyError (List ℚ) :=
  let length := stop - start
  let denominator : ℤ := if endpoint then points - 1 else points
  if points ≤ 0 then .ok []
  else if denominator = 0 then .error .zeroDivisionError
  else .ok ((List.range points.toNat).map
    (fun count : ℕ => start + ((count : ℚ) / (denominator : ℚ)) * length))

/-! ## `more_itertools.divide` and `SweepConfiguration.sweep_range`

`sweep_range` (orchestration/sweep_configuration.py) builds the grid as
`itertools.product(temperatures, densities)` and yields
`list(divide(chunk_count, ...))[chunk_index]`.  `divide` is the
more-itertools library function: with `q, r = divmod(len(seq), n)` it
returns `n` consecutive slices of `seq`, the `i`-th (1-based) of size
`q + 1` when `i ≤ r` and `q` otherwise. -/

/-- The slicing loop of `more_itertools.divide`: `k` remaining chunks,
`i` the 1-based index of the next chunk, `stop` the slice cursor. -/
def divideAux (seq : List α) (q r : ℕ) : ℕ → ℕ → ℕ → List (List α)
  | 0, _, _ => []
  | k + 1, i, stop =>
    let size := if i ≤ r then q + 1 else q
    ((seq.drop stop).take size) :: divideAux seq q r k (i + 1) (stop + size)

/-- `more_itertools.divide(n, seq)`; `n < 1` raises `ValueError` (`none`). -/
def divide (n : ℕ) (seq : List α) : Option (List (List α)) :=
  if n = 0 then none
  else some (divideAux seq (seq.length / n) (seq.length % n) n 1 0)

/-- The chunk selection performed by `SweepConfiguration.sweep_range`:
`list(divide(chunk_count, points))[chunk_index]`, over an arbitrary ordered
sequence of grid points; `none` models the `ValueError` from `divide` or the
`IndexError` from the list indexing. -/
def sweepRangeChunk (points : List α) (chunk_count chunk_index : ℕ) :
    Option (List α) :=
  (divide chunk_count points).bind fun chunks => chunks.get? chunk_index

/-- The grid enumeration of `SweepConfiguration.sweep_range` (before
chunking): the cross product of the temperature and density linspaces,
outer loop over temperature, inner loop over density, both endpoint
inclusive (`itertools.product(temperatures, densities)`). -/
def sweepGridPoints (tStart tStop : ℚ) (tSteps : ℤ)
    (dStart dStop : ℚ) (dSteps : ℤ) : Except PyError (List (ℚ × ℚ)) :=
  match linspace tStart tStop tSteps true with
  | .error e => .error e
  | .ok temperatures =>
    match linspace dStart dStop dSteps true with
    | .error e => .error e
    | .ok densities => .ok (List.product temperatures densities)

/-! ## `orchestration/sweep_result.py` and `run_sweep._get_sweep_result` -/

/-- The three buckets of `SweepResult` (the simulation directories filed in
each; the attached `EventLogParser` records are kept with the parse result
in the theorems). -/
structure SweepResultBuckets where
  completed : List String := []
  equilibration_aborted : List String := []
  observation_aborted : List String := []
deriving DecidableEq, Repr

/-- The bucket the local variable `category` refers to. -/
inductive Bucket where
  | completed
  | equilibration_aborted
  | observation_aborted
deriving DecidableEq, Repr

/-- `category.append(simulation_dir)`. -/
def appendBucket (res : SweepResultBuckets) (b : Bucket) (dir : String) :
    SweepResultBuckets :=
  match b with
  | .completed => { res with completed := res.completed ++ [dir] }
  | .equilibration_aborted =>
    { res with equilibration_aborted := res.equilibration_aborted ++ [dir] }
  | .observation_aborted =>
    { res with observation_aborted := res.observation_aborted ++ [dir] }

/-- One iteration of the loop in `SweepResult._collect_results`: parse the
point's event log, rebind `category` on a matching status (the `if`/`elif`
chain has no `else`, so an unmatched status leaves `category` bound to the
previous iteration's bucket — and unbound on the first iteration, where
`category.append` raises `NameError`). -/
def collectStep (res : SweepResultBuckets) (category : Option Bucket)
    (dir : String) (lines : List String) :
    Except PyError (SweepResultBuckets × Bucket) :=
  match parseEventLog lines with
  | .error e => .error e
  | .ok p =>
    let category :=
      if p.simulation_status = some .completed then some .completed
      else if p.simulation_status = some .equilibration_aborted then
        some .equilibration_aborted
      else if p.simulation_status = some .observation_aborted then
        some .observation_aborted
      else category
    match category with
    | none => .error .nameError
    | some b => .ok (appendBucket res b dir, b)

/-- The loop of `SweepResult._collect_results` over the points of the
sweep, each given as (simulation directory, event-log lines). -/
def collectResults : SweepResultBuckets → Option Bucket →
    List (String × List String) → Except PyError SweepResultBuckets
  | res, _, [] => .ok res
  | res, category, (dir, lines) :: rest =>
    match collectStep res category dir lines with
    | .error e => .error e
    | .ok (res', b) => collectResults res' (some b) rest

/-- `SweepResult.__init__` + `_collect_results`. -/
def sweepResultOf (points : List (String × List String)) :
    Except PyError SweepResultBuckets :=
  collectResults {} none points

/-- The `SimulationResult` enumeration of
`orchestration/simulation_result.py`. -/
inductive SimulationResult where
  | completed
  | equilibration_aborted
  | observation_aborted
deriving DecidableEq, Repr

/-- The classification step of `get_simulation_result`
(orchestration/simulation_result.py): examines the last line of the events
log (`last_line`, a helper whose source is not under `src/`, returns the
file's final line).  The claims that use it presuppose the events log
exists, so the `FileNotFoundError` path is not modelled. -/
def getSimulationResult (result_line : String) : SimulationResult :=
  if isSubstring "aborted".data result_line.data then
    if isSubstring "equilibrate".data result_line.data then
      .equilibration_aborted
    else .observation_aborted
  else .completed

/-- The buckets of the `SweepResult` dataclass local to
`orchestration/run_sweep.py` (lists of simulation directories). -/
structure SweepResultPaths where
  completed : List String := []
  equilibration_aborted : List String := []
  observation_aborted : List String := []
deriving DecidableEq, Repr

/-- One iteration of the loop of `run_sweep._get_sweep_result`: the
`if`/`elif` chain covers all three `SimulationResult` members, so every
point is appended to exactly one bucket. -/
def getSweepResultStep (res : SweepResultPaths) (p : String × String) :
    SweepResultPaths :=
  match getSimulationResult p.2 with
  | .completed => { res with completed := res.completed ++ [p.1] }
  | .equilibration_aborted =>
    { res with equilibration_aborted := res.equilibration_aborted ++ [p.1] }
  | .observation_aborted =>
    { res with observation_aborted := res.observation_aborted ++ [p.1] }

/-- The loop of `run_sweep._get_sweep_result` over the points of the sweep,
each given as (simulation directory, last line of its events log). -/
def getSweepResult (points : List (String × String)) : SweepResultPaths :=
  points.foldl getSweepResultStep {}

/-! ## `simulation/configuration.py`: the `Configuration` dataclass

`Configuration` nests four mutable section dataclasses.  Crucially, the
source gives them plain instance defaults (`system: _System = _System()`,
lines 71–74), not `default_factory`: Python evaluates a dataclass field
default once, when the `class` statement executes, and stores the resulting
object on the class, so every `Configuration()` receives the *same* four
section objects.  (The Python 3.9/3.10 this 2021–2022 code targets accepts
such defaults; only `list`/`dict`/`set` defaults are rejected there.)

The embedding makes object identity explicit: section records live in a
`Store` and are designated by their address (list index); a `Configuration`
is a quadruple of addresses. -/

/-- The `_System` section; `random_seed`'s default is
`SeedGenerator.default_seed()`, an engine-side value (not under `src/`)
carried as the parameter `seed0` of `initStore`. -/
structure SystemRec where
  temperature : ℚ := 8/10
  density : ℚ := 1
  particle_count : ℤ := 100
  cutoff_distance : ℚ := 5/2
  time_delta : ℚ := 1/200
  random_seed : ℤ
deriving DecidableEq, Repr

/-- The `_Equilibration` section (also the shape of
`SweepConfiguration._Equilibration`, whose field list is identical). -/
structure EquilibrationRec where
  name : String := "Equilibration Phase"
  tolerance : ℚ := 1/20
  sample_size : ℤ := 50
  adjustment_interval : ℤ := 200
  steady_state_time : ℤ := 1000
  timeout : ℤ := 5000
deriving DecidableEq, Repr

/-- The `_Observation` section (also the shape of
`SweepConfiguration._Observation`). -/
structure ObservationRec where
  name : String := "Observation Phase"
  tolerance : ℚ := 1/10
  sample_size : ℤ := 50
  observation_interval : ℤ := 200
  observation_count : ℤ := 20
deriving DecidableEq, Repr

/-- The `_Filepaths` section (also the shape of
`SweepConfiguration._Filenames`). -/
structure FilepathsRec where
  event_log : String := "events.log"
  thermodynamic_log : String := "thermodynamics.csv"
  observation_log : String := "observations.csv"
  snapshot_log : String := "snapshots.csv"
deriving DecidableEq, Repr

instance : Inhabited SystemRec := ⟨{ random_seed := 0 }⟩

instance : Inhabited EquilibrationRec := ⟨{}⟩

instance : Inhabited ObservationRec := ⟨{}⟩

instance : Inhabited FilepathsRec := ⟨{}⟩

/-- The store of mutable section objects, one list per section class;
an object's address is its index. -/
structure Store where
  systems : List SystemRec
  equilibrations : List EquilibrationRec
  observations : List ObservationRec
  filepaths : List FilepathsRec
deriving DecidableEq, Repr

/-- A Python `Configuration` object: a reference to one section object of
each kind. -/
structure Configuration where
  system : ℕ
  equilibration : ℕ
  observation : ℕ
  filepaths : ℕ
deriving DecidableEq, Repr

def getSystem (s : Store) (a : ℕ) : SystemRec := s.systems.getD a default

def getEquilibration (s : Store) (a : ℕ) : EquilibrationRec :=
  s.equilibrations.getD a default

def getObservation (s : Store) (a : ℕ) : ObservationRec :=
  s.observations.getD a default

def getFilepaths (s : Store) (a : ℕ) : FilepathsRec := s.filepaths.getD a default

def setSystem (s : Store) (a : ℕ) (v : SystemRec) : Store :=
  { s with systems := s.systems.set a v }

def setEquilibration (s : Store) (a : ℕ) (v : EquilibrationRec) : Store :=
  { s with equilibrations := s.equilibrations.set a v }

def setObservation (s : Store) (a : ℕ) (v : ObservationRec) : Store :=
  { s with observations := s.observations.set a v }

def setFilepaths (s : Store) (a : ℕ) (v : FilepathsRec) : Store :=
  { s with filepaths := s.filepaths.set a v }

/-- An attribute assignment `obj.field = ...` through a section reference. -/
def modifySystem (s : Store) (a : ℕ) (f : SystemRec → SystemRec) : Store :=
  setSystem s a (f (getSystem s a))

def modifyEquilibration (s : Store) (a : ℕ)
    (f : EquilibrationRec → EquilibrationRec) : Store :=
  setEquilibration s a (f (getEquilibration s a))

def modifyObservation (s : Store) (a : ℕ)
    (f : ObservationRec → ObservationRec) : Store :=
  setObservation s a (f (getObservation s a))

def modifyFilepaths (s : Store) (a : ℕ)
    (f : FilepathsRec → FilepathsRec) : Store :=
  setFilepaths s a (f (getFilepaths s a))

/-- The store as it stands after the `Configuration` class statement has
executed: the four class-level default section objects, at address 0, with
the `_System` default seed `seed0` (= `SeedGenerator.default_seed()`). -/
def initStore (seed0 : ℤ) : Store :=
  { systems := [{ random_seed := seed0 }],
    equilibrations := [{}],
    observations := [{}],
    filepaths := [{}] }

/-- `Configuration()` with no arguments: every field takes its class-level
default object, so the new instance references the four default addresses;
no new section objects are allocated. -/
def mkConfiguration : Configuration := ⟨0, 0, 0, 0⟩

/-- The current field values reachable through a `Configuration` object —
what `Configuration.write` stores (its textual marshalling is verified
separately below) and what `Simulation(run_cfg)` hands to the engine. -/
structure ConfigData where
  system : SystemRec
  equilibration : EquilibrationRec
  observation : ObservationRec
  filepaths : FilepathsRec
deriving DecidableEq, Repr

def configValues (s : Store) (c : Configuration) : ConfigData :=
  { system := getSystem s c.system,
    equilibration := getEquilibration s c.equilibration,
    observation := getObservation s c.observation,
    filepaths := getFilepaths s c.filepaths }

/-- `Configuration.from_file`: `cls()` — which reuses the shared default
section objects — followed by `read`; a file written by
`Configuration.write` contains every key, so `read_config_parser`
overwrites every field of the (shared) sections with the file's values.
A stored file is carried as its parsed `ConfigData`. -/
def Configuration.from_file (s : Store) (filedata : ConfigData) :
    Configuration × Store :=
  let c := mkConfiguration
  let s := setSystem s c.system filedata.system
  let s := setEquilibration s c.equilibration filedata.equilibration
  let s := setObservation s c.observation filedata.observation
  let s := setFilepaths s c.filepaths filedata.filepaths
  (c, s)

/-! ## `orchestration/run_sweep.py` -/

/-- `SweepConfiguration._System` (sweep bounds and shared parameters). -/
structure SweepSystemRec where
  temperature_start : ℚ := 1/10
  temperature_stop : ℚ := 1
  temperature_steps : ℤ := 10
  density_start : ℚ := 1/10
  density_stop : ℚ := 1
  density_steps : ℤ := 10
  particle_count : ℤ := 100
  cutoff_distance : ℚ := 5/2
  time_delta : ℚ := 1/200
deriving DecidableEq, Repr

/-- `SweepConfiguration._Templates`.  The source stores `str.format`
template strings (`directory`, `phase_name`); the format mini-language is
not re-implemented, so each template is embedded as the substitution
function it denotes. -/
structure SweepTemplatesRec where
  directory : ℚ → ℚ → String
  run_config_file : String := "run.ini"
  phase_name : ℚ → ℚ → String → String

/-- A `SweepConfiguration` as consumed by `_create_simulations`.  (In
Python it too has shared mutable section defaults, but the functions under
study only read it, so it is embedded as an immutable record.) -/
structure SweepConfiguration where
  system : SweepSystemRec := {}
  templates : SweepTemplatesRec
  equilibration : EquilibrationRec := {}
  observation : ObservationRec := {}
  filenames : FilepathsRec := {}

/-- `pathlib`'s `/` on path strings: an absolute right operand replaces the
left operand; otherwise the parts are joined with `/`. -/
def pathJoin (d p : String) : String :=
  if p.data.head? = some '/' then p else d ++ "/" ++ p

/-- The `random_seed` argument of `run_sweep`: `None`, an `int`, or a
zero-argument function.  A function argument is embedded as the stream of
values it returns on successive calls, consumed through a call counter. -/
inductive RandomSeedArg where
  | none
  | int (n : ℤ)
  | fn (f : ℕ → ℤ)

/-- `run_sweep._create_run_configuration`: `Configuration()` (which aliases
the shared default sections) followed by one attribute assignment per
source line.  Note that `system.random_seed` is *not* assigned. -/
def create_run_configuration (sweep : SweepConfiguration)
    (temperature density : ℚ) (s : Store) : Configuration × Store :=
  let run_cfg := mkConfiguration
  let s := modifySystem s run_cfg.system fun r => { r with temperature := temperature }
  let s := modifySystem s run_cfg.system fun r => { r with density := density }
  let s := modifySystem s run_cfg.system fun r =>
    { r with particle_count := sweep.system.particle_count }
  let s := modifySystem s run_cfg.system fun r =>
    { r with cutoff_distance := sweep.system.cutoff_distance }
  let s := modifySystem s run_cfg.system fun r =>
    { r with time_delta := sweep.system.time_delta }
  let s := modifyEquilibration s run_cfg.equilibration fun r =>
    { r with name := sweep.templates.phase_name temperature density sweep.equilibration.name }
  let s := modifyEquilibration s run_cfg.equilibration fun r =>
    { r with tolerance := sweep.equilibration.tolerance }
  let s := modifyEquilibration s run_cfg.equilibration fun r =>
    { r with sample_size := sweep.equilibration.sample_size }
  let s := modifyEquilibration s run_cfg.equilibration fun r =>
    { r with adjustment_interval := sweep.equilibration.adjustment_interval }
  let s := modifyEquilibration s run_cfg.equilibration fun r =>
    { r with steady_state_time := sweep.equilibration.steady_state_time }
  let s := modifyEquilibration s run_cfg.equilibration fun r =>
    { r with timeout := sweep.equilibration.timeout }
  let s := modifyObservation s run_cfg.observation fun r =>
    { r with name := sweep.templates.phase_name temperature density sweep.observation.name }
  let s := modifyObservation s run_cfg.observation fun r =>
    { r with tolerance := sweep.observation.tolerance }
  let s := modifyObservation s run_cfg.observation fun r =>
    { r with sample_size := sweep.observation.sample_size }
  let s := modifyObservation s run_cfg.observation fun r =>
    { r with observation_interval := sweep.observation.observation_interval }
  let s := modifyObservation s run_cfg.observation fun r =>
    { r with observation_count := sweep.observation.observation_count }
  let s := modifyFilepaths s run_cfg.filepaths fun r =>
    { r with event_log := sweep.filenames.event_log }
  let s := modifyFilepaths s run_cfg.filepaths fun r =>
    { r with thermodynamic_log := sweep.filenames.thermodynamic_log }
  let s := modifyFilepaths s run_cfg.filepaths fun r =>
    { r with observation_log := sweep.filenames.observation_log }
  let s := modifyFilepaths s run_cfg.filepaths fun r =>
    { r with snapshot_log := sweep.filenames.snapshot_log }
  (run_cfg, s)

/-- `run_sweep._prepend_simulation_dir`. -/
def prepend_simulation_dir (simulation_dir : String) (s : Store)
    (run_cfg : Configuration) : Store :=
  let s := modifyFilepaths s run_cfg.filepaths fun r =>
    { r with event_log := pathJoin simulation_dir r.event_log }
  let s := modifyFilepaths s run_cfg.filepaths fun r =>
    { r with thermodynamic_log := pathJoin simulation_dir r.thermodynamic_log }
  let s := modifyFilepaths s run_cfg.filepaths fun r =>
    { r with observation_log := pathJoin simulation_dir r.observation_log }
  let s := modifyFilepaths s run_cfg.filepaths fun r =>
    { r with snapshot_log := pathJoin simulation_dir r.snapshot_log }
  s

/-- The run-config files on disk: an association list from file path to the
parsed content of the most recent write at that path. -/
abbrev Disk := List (String × ConfigData)

def diskLookup : Disk → String → Option ConfigData
  | [], _ => none
  | (p, filedata) :: rest, path =>
    if path = p then some filedata else diskLookup rest path

def diskWrite (d : Disk) (path : String) (filedata : ConfigData) : Disk :=
  (path, filedata) :: d

/-- What one iteration of the `_create_simulations` loop produces for its
grid point. -/
structure SimulationDispatch where
  run_cfg : Configuration
  path : String
  written : ConfigData
  sim : ConfigData

/-- One iteration of the `_create_simulations` loop, for grid point `td`,
from program state (store, disk, seed-function call count): derive the run
configuration, resolve the random seed (source branch order: `None` with
an existing file, then `int`, then function, then nothing), write the
config file, prepend the simulation directory onto the output paths, and
construct the `Simulation` (which captures the then-current field
values). -/
def create_simulation_point (sweep : SweepConfiguration)
    (random_seed : RandomSeedArg) (td : ℚ × ℚ) :
    Store × Disk × ℕ → (Store × Disk × ℕ) × SimulationDispatch :=
  fun (s, disk, calls) =>
    let simulation_dir := sweep.templates.directory td.1 td.2
    let run_config_file := pathJoin simulation_dir sweep.templates.run_config_file
    let (run_cfg, s) := create_run_configuration sweep td.1 td.2 s
    let (s, calls) :=
      match random_seed, diskLookup disk run_config_file with
      | .none, some filedata =>
        let (existing_cfg, s) := Configuration.from_file s filedata
        let seed := (getSystem s existing_cfg.system).random_seed
        (modifySystem s run_cfg.system fun r => { r with random_seed := seed }, calls)
      | .none, Option.none => (s, calls)
      | .int n, _ =>
        (modifySystem s run_cfg.system fun r => { r with random_seed := n }, calls)
      | .fn f, _ =>
        (modifySystem s run_cfg.system fun r => { r with random_seed := f calls },
          calls + 1)
    let written := configValues s run_cfg
    let disk := diskWrite disk run_config_file written
    let s := prepend_simulation_dir simulation_dir s run_cfg
    ((s, disk, calls),
      { run_cfg := run_cfg, path := run_config_file, written := written,
        sim := configValues s run_cfg })

/-- The `for temperature, density in _sweep_range(...)` loop of
`_create_simulations`. -/
def create_simulations_aux (sweep : SweepConfiguration)
    (random_seed : RandomSeedArg) :
    List (ℚ × ℚ) → Store × Disk × ℕ →
      (Store × Disk × ℕ) × List SimulationDispatch
  | [], st => (st, [])
  | td :: rest, st =>
    let (st', e) := create_simulation_point sweep random_seed td st
    let (stF, es) := create_simulations_aux sweep random_seed rest st'
    (stF, e :: es)

/-- `run_sweep._create_simulations`, from the class-definition-time store
(`initStore seed0`) and the given initial disk contents. -/
def create_simulations (sweep : SweepConfiguration)
    (random_seed : RandomSeedArg) (points : List (ℚ × ℚ)) (seed0 : ℤ)
    (disk : Disk) : (Store × Disk × ℕ) × List SimulationDispatch :=
  create_simulations_aux sweep random_seed points (initStore seed0, disk, 0)

/-- The store shape maintained throughout `_create_simulations`: exactly the
four class-level section objects (no code path allocates another one). -/
def singletonStore (sys : SystemRec) (equi : EquilibrationRec)
    (obs : ObservationRec) (fp : FilepathsRec) : Store :=
  { systems := [sys], equilibrations := [equi], observations := [obs],
    filepaths := [fp] }

/-- The `system` section `_create_run_configuration` leaves behind for grid
point `(T, D)` when the shared record's current seed is `seed` (the seed is
the one field it does not assign). -/
def derivedSystem (sweep : SweepConfiguration) (T D : ℚ) (seed : ℤ) :
    SystemRec :=
  { temperature := T, density := D,
    particle_count := sweep.system.particle_count,
    cutoff_distance := sweep.system.cutoff_distance,
    time_delta := sweep.system.time_delta,
    random_seed := seed }

/-- The `equilibration` section `_create_run_configuration` derives. -/
def derivedEquilibration (sweep : SweepConfiguration) (T D : ℚ) :
    EquilibrationRec :=
  { name := sweep.templates.phase_name T D sweep.equilibration.name,
    tolerance := sweep.equilibration.tolerance,
    sample_size := sweep.equilibration.sample_size,
    adjustment_interval := sweep.equilibration.adjustment_interval,
    steady_state_time := sweep.equilibration.steady_state_time,
    timeout := sweep.equilibration.timeout }

/-- The `observation` section `_create_run_configuration` derives. -/
def derivedObservation (sweep : SweepConfiguration) (T D : ℚ) :
    ObservationRec :=
  { name := sweep.templates.phase_name T D sweep.observation.name,
    tolerance := sweep.observation.tolerance,
    sample_size := sweep.observation.sample_size,
    observation_interval := sweep.observation.observation_interval,
    observation_count := sweep.observation.observation_count }

/-- The (unqualified) `filepaths` section `_create_run_configuration`
derives: exactly the `SweepConfiguration`'s plain filenames. -/
def derivedFilepaths (sweep : SweepConfiguration) : FilepathsRec :=
  { event_log := sweep.filenames.event_log,
    thermodynamic_log := sweep.filenames.thermodynamic_log,
    observation_log := sweep.filenames.observation_log,
    snapshot_log := sweep.filenames.snapshot_log }

/-- The effect of `_prepend_simulation_dir` on a `filepaths` section. -/
def prefixedFilepaths (dir : String) (fp : FilepathsRec) : FilepathsRec :=
  { event_log := pathJoin dir fp.event_log,
    thermodynamic_log := pathJoin dir fp.thermodynamic_log,
    observation_log := pathJoin dir fp.observation_log,
    snapshot_log := pathJoin dir fp.snapshot_log }

/-- The simulation directory of grid point `td`. -/
def pointDir (sweep : SweepConfiguration) (td : ℚ × ℚ) : String :=
  sweep.templates.directory td.1 td.2

/-- The run-config file path of grid point `td`. -/
def pointPath (sweep : SweepConfiguration) (td : ℚ × ℚ) : String :=
  pathJoin (pointDir sweep td) sweep.templates.run_config_file

/-- Concrete two-point sweep scenario: grid points `(1, 1)` and `(2, 1)`
mapped to directories `"A"` and `"B"`. -/
def cexSweep : SweepConfiguration :=
  { templates := { directory := fun t _ => if t = 1 then "A" else "B",
                   phase_name := fun _ _ n => n } }

/-- A pre-existing run-config file recording random seed 7. -/
def cexSeed7File : ConfigData :=
  { system := { random_seed := 7 }, equilibration := {}, observation := {},
    filepaths := {} }

/-- The full content of one grid point's derived configuration at
write time, as a function of the seed it ends up with. -/
def derivedConfigData (sweep : SweepConfiguration) (td : ℚ × ℚ) (seed : ℤ) :
    ConfigData :=
  ⟨derivedSystem sweep td.1 td.2 seed, derivedEquilibration sweep td.1 td.2,
    derivedObservation sweep td.1 td.2, derivedFilepaths sweep⟩

/-! ## The textual config format: `Configuration.write` / `read`

`write` stringifies every field with `str(...)` and stores it under its key
in its section; `read` re-parses the file with `configparser` and coerces
each stored string back through `getint` / `getfloat` / the raw
(interpolated) string according to the field's current type
(`read_config_parser`).  The `bool` coercion branch of the source is dead
here: no `Configuration` field is a `bool`. -/

/-- Decimal digit character for `d < 10`. -/
def digitChar (d : ℕ) : Char := Char.ofNat (48 + d)

/-- Big-endian decimal digits of `n` (fuel-structured so that it reduces
definitionally; `fuel ≥ n` suffices). -/
def natToCharsAux : ℕ → ℕ → List Char
  | 0, _ => []
  | fuel + 1, n =>
    if n = 0 then [] else natToCharsAux fuel (n / 10) ++ [digitChar (n % 10)]

/-- Python `str(n)` for `n : ℕ`. -/
def natToChars (n : ℕ) : List Char :=
  if n = 0 then ['0'] else natToCharsAux n n

/-- Python `str(i)` for an `int`. -/
def intToChars (i : ℤ) : List Char :=
  if i < 0 then '-' :: natToChars i.natAbs else natToChars i.natAbs

/-- Multiplicity of the factor `p` in `n` (fuel-structured). -/
def powCountAux (p : ℕ) : ℕ → ℕ → ℕ
  | 0, _ => 0
  | fuel + 1, n => if n ≠ 0 ∧ p ∣ n then powCountAux p fuel (n / p) + 1 else 0

def powCount (p n : ℕ) : ℕ := powCountAux p n n

/-- `q` has a finite decimal expansion: its reduced denominator is exactly
`2^a * 5^b`.  Every Python `float` value is a dyadic rational and so
satisfies this. -/
def decimalRep (q : ℚ) : Prop :=
  q.den = 2 ^ powCount 2 q.den * 5 ^ powCount 5 q.den

instance (q : ℚ) : Decidable (decimalRep q) := by
  unfold decimalRep; infer_instance

/-- Python `str(x)` for a float prints the shortest decimal string that
parses back to exactly `x`; this embedding prints the exact (finite)
decimal expansion instead, which exists for every float value and likewise
parses back exactly — the property under study.  (`str(float)` switches to
exponent notation at extreme magnitudes; the exponent-free exact form is
used uniformly here.)  At least one fractional digit is always produced,
as in `str(5.0) = '5.0'`. -/
def floatToChars (q : ℚ) : List Char :=
  let a := powCount 2 q.den
  let b := powCount 5 q.den
  let k := max (max a b) 1
  let scaled : ℕ := q.num.natAbs * (2 ^ (k - a) * 5 ^ (k - b))
  let ipart := scaled / 10 ^ k
  let fpart := scaled % 10 ^ k
  let fpChars := List.replicate (k - (natToChars fpart).length) '0' ++ natToChars fpart
  (if q.num < 0 then ['-'] else []) ++ natToChars ipart ++ '.' :: fpChars

/-- Number of decimal digits after the point in `floatToChars`. -/
def floatK (q : ℚ) : ℕ := max (max (powCount 2 q.den) (powCount 5 q.den)) 1

/-- The factor turning `q.den` into `10 ^ floatK q` (for decimal-representable
`q`). -/
def floatMult (q : ℚ) : ℕ :=
  2 ^ (floatK q - powCount 2 q.den) * 5 ^ (floatK q - powCount 5 q.den)

/-- The magnitude part of Python `float(s)`: digits with an optional single
decimal point, at least one digit in total.  (Exponent notation and
`inf`/`nan`, which no string written by this code uses, are not
modelled.) -/
def pyFloatMagnitude (t : List Char) : Option ℚ :=
  match splitFirst ['.'] t with
  | Option.none =>
    if t ≠ [] ∧ t.all Char.isDigit then some ((natFromDigits t : ℚ)) else none
  | some (ipart, fpart) =>
    if (ipart ≠ [] ∨ fpart ≠ []) ∧ ipart.all Char.isDigit ∧ fpart.all Char.isDigit then
      some ((natFromDigits ipart : ℚ) + (natFromDigits fpart : ℚ) / (10 : ℚ) ^ fpart.length)
    else none

/-- Python `float(s)`: optional surrounding whitespace, an optional sign,
then a decimal magnitude; `none` models `ValueError`. -/
def pyFloatOfChars (s : List Char) : Option ℚ :=
  match stripChars s with
  | [] => none
  | c :: ds =>
    if c = '-' then (pyFloatMagnitude ds).map Neg.neg
    else if c = '+' then pyFloatMagnitude ds
    else pyFloatMagnitude (c :: ds)

/-- `configparser`'s `BasicInterpolation` applied when a value is fetched,
modelled on the fragment this development exercises: a value free of `'%'`
is returned unchanged.  A value containing `'%'` enters interpolation
processing (`%%` unescaping, `%(name)s` substitution against the section,
`InterpolationSyntaxError` otherwise), none of which reproduces the stored
value; it is mapped to `none` and excluded by the validity hypotheses of
the round-trip law. -/
def interpolate (s : List Char) : Option (List Char) :=
  if s.all (fun c => c ≠ '%') then some s else none

/-- Writing `key = value` with `ConfigParser.write` and re-reading the
file: for the single-line values this code produces, the parser stores the
value text with surrounding whitespace stripped. -/
def fileRoundTrip (v : String) : String := String.mk (stripChars v.data)

/-- `ConfigParser.getint`. -/
def cpGetInt (raw : String) : Option ℤ := (interpolate raw.data).bind pyIntOfChars

/-- `ConfigParser.getfloat`. -/
def cpGetFloat (raw : String) : Option ℚ := (interpolate raw.data).bind pyFloatOfChars

/-- `cp[section][key]` for a field of `str` type. -/
def cpGetStr (raw : String) : Option String := (interpolate raw.data).map String.mk

/-- `key in cp[section]` / `cp[section][key]` on the parsed file. -/
def findVal (k : String) : List (String × String) → Option String
  | [] => none
  | (k', v) :: rest => if k = k' then some v else findVal k rest

def writeSystemSection (r : SystemRec) : List (String × String) :=
  [("temperature", String.mk (floatToChars r.temperature)),
   ("density", String.mk (floatToChars r.density)),
   ("particle_count", String.mk (intToChars r.particle_count)),
   ("cutoff_distance", String.mk (floatToChars r.cutoff_distance)),
   ("time_delta", String.mk (floatToChars r.time_delta)),
   ("random_seed", String.mk (intToChars r.random_seed))]

def writeEquilibrationSection (r : EquilibrationRec) : List (String × String) :=
  [("name", r.name),
   ("tolerance", String.mk (floatToChars r.tolerance)),
   ("sample_size", String.mk (intToChars r.sample_size)),
   ("adjustment_interval", String.mk (intToChars r.adjustment_interval)),
   ("steady_state_time", String.mk (intToChars r.steady_state_time)),
   ("timeout", String.mk (intToChars r.timeout))]

def writeObservationSection (r : ObservationRec) : List (String × String) :=
  [("name", r.name),
   ("tolerance", String.mk (floatToChars r.tolerance)),
   ("sample_size", String.mk (intToChars r.sample_size)),
   ("observation_interval", String.mk (intToChars r.observation_interval)),
   ("observation_count", String.mk (intToChars r.observation_count))]

def writeFilepathsSection (r : FilepathsRec) : List (String × String) :=
  [("event_log", r.event_log),
   ("thermodynamic_log", r.thermodynamic_log),
   ("observation_log", r.observation_log),
   ("snapshot_log", r.snapshot_log)]

/-- `Configuration.write`: one section per nested dataclass, each field
stringified with `str(...)`. -/
def writeConfigData (c : ConfigData) : List (String × List (String × String)) :=
  [("system", writeSystemSection c.system),
   ("equilibration", writeEquilibrationSection c.equilibration),
   ("observation", writeObservationSection c.observation),
   ("filepaths", writeFilepathsSection c.filepaths)]

/-- `read_config_parser` over the `system` section: each key present is
coerced according to the field's current type (all failures are raised
exceptions, collapsed to `none`). -/
def readSystemSection (r0 : SystemRec) (sec : List (String × String)) :
    Option SystemRec := do
  let temperature ← match findVal "temperature" sec with
    | Option.none => some r0.temperature
    | some raw => cpGetFloat raw
  let density ← match findVal "density" sec with
    | Option.none => some r0.density
    | some raw => cpGetFloat raw
  let particle_count ← match findVal "particle_count" sec with
    | Option.none => some r0.particle_count
    | some raw => cpGetInt raw
  let cutoff_distance ← match findVal "cutoff_distance" sec with
    | Option.none => some r0.cutoff_distance
    | some raw => cpGetFloat raw
  let time_delta ← match findVal "time_delta" sec with
    | Option.none => some r0.time_delta
    | some raw => cpGetFloat raw
  let random_seed ← match findVal "random_seed" sec with
    | Option.none => some r0.random_seed
    | some raw => cpGetInt raw
  some { temperature := temperature, density := density,
         particle_count := particle_count, cutoff_distance := cutoff_distance,
         time_delta := time_delta, random_seed := random_seed }

def readEquilibrationSection (r0 : EquilibrationRec)
    (sec : List (String × String)) : Option EquilibrationRec := do
  let name ← match findVal "name" sec with
    | Option.none => some r0.name
    | some raw => cpGetStr raw
  let tolerance ← match findVal "tolerance" sec with
    | Option.none => some r0.tolerance
    | some raw => cpGetFloat raw
  let sample_size ← match findVal "sample_size" sec with
    | Option.none => some r0.sample_size
    | some raw => cpGetInt raw
  let adjustment_interval ← match findVal "adjustment_interval" sec with
    | Option.none => some r0.adjustment_interval
    | some raw => cpGetInt raw
  let steady_state_time ← match findVal "steady_state_time" sec with
    | Option.none => some r0.steady_state_time
    | some raw => cpGetInt raw
  let timeout ← match findVal "timeout" sec with
    | Option.none => some r0.timeout
    | some raw => cpGetInt raw
  some { name := name, tolerance := tolerance, sample_size := sample_size,
         adjustment_interval := adjustment_interval,
         steady_state_time := steady_state_time, timeout := timeout }

def readObservationSection (r0 : ObservationRec)
    (sec : List (String × String)) : Option ObservationRec := do
  let name ← match findVal "name" sec with
    | Option.none => some r0.name
    | some raw => cpGetStr raw
  let tolerance ← match findVal "tolerance" sec with
    | Option.none => some r0.tolerance
    | some raw => cpGetFloat raw
  let sample_size ← match findVal "sample_size" sec with
    | Option.none => some r0.sample_size
    | some raw => cpGetInt raw
  let observation_interval ← match findVal "observation_interval" sec with
    | Option.none => some r0.observation_interval
    | some raw => cpGetInt raw
  let observation_count ← match findVal "observation_count" sec with
    | Option.none => some r0.observation_count
    | some raw => cpGetInt raw
  some { name := name, tolerance := tolerance, sample_size := sample_size,
         observation_interval := observation_interval,
         observation_count := observation_count }

def readFilepathsSection (r0 : FilepathsRec) (sec : List (String × String)) :
    Option FilepathsRec := do
  let event_log ← match findVal "event_log" sec with
    | Option.none => some r0.event_log
    | some raw => cpGetStr raw
  let thermodynamic_log ← match findVal "thermodynamic_log" sec with
    | Option.none => some r0.thermodynamic_log
    | some raw => cpGetStr raw
  let observation_log ← match findVal "observation_log" sec with
    | Option.none => some r0.observation_log
    | some raw => cpGetStr raw
  let snapshot_log ← match findVal "snapshot_log" sec with
    | Option.none => some r0.snapshot_log
    | some raw => cpGetStr raw
  some { event_log := event_log, thermodynamic_log := thermodynamic_log,
         observation_log := observation_log, snapshot_log := snapshot_log }

/-- `Configuration.from_file` on a written file, value level:
`cls()` yields the (shared) base sections `base`; `read` re-parses the
file — every stored value coming back stripped of surrounding whitespace —
and `read_config_parser` overwrites each field whose key is present. -/
def readConfigData (base : ConfigData)
    (file : List (String × List (String × String))) : Option ConfigData := do
  let stripped := file.map fun sec => (sec.1, sec.2.map fun kv => (kv.1, fileRoundTrip kv.2))
  let system ← match (stripped.find? fun sec => sec.1 = "system") with
    | Option.none => some base.system
    | some sec => readSystemSection base.system sec.2
  let equilibration ← match (stripped.find? fun sec => sec.1 = "equilibration") with
    | Option.none => some base.equilibration
    | some sec => readEquilibrationSection base.equilibration sec.2
  let observation ← match (stripped.find? fun sec => sec.1 = "observation") with
    | Option.none => some base.observation
    | some sec => readObservationSection base.observation sec.2
  let filepaths ← match (stripped.find? fun sec => sec.1 = "filepaths") with
    | Option.none => some base.filepaths
    | some sec => readFilepathsSection base.filepaths sec.2
  some { system := system, equilibration := equilibration,
         observation := observation, filepaths := filepaths }

/-- A `str`-typed config value for which `configparser` is transparent:
single-line, no surrounding whitespace (stripped on re-read), and no `'%'`
(subject to interpolation on fetch). -/
def validConfigStr (s : String) : Prop :=
  stripChars s.data = s.data ∧ s.data.all (fun c => c ≠ '%') = true

instance (s : String) : Decidable (validConfigStr s) := by
  unfold validConfigStr; infer_instance

/-- Specification helper: total number of elements taken by the chunks of
`divideAux` numbered `i, i+1, …, i+k-1`. -/
def sizeSum (q r : ℕ) : ℕ → ℕ → ℕ
  | 0, _ => 0
  | k + 1, i => (if i ≤ r then q + 1 else q) + sizeSum q r k (i + 1)

/-! ## Helper lemmas: prefix disambiguation -/

theorem isPrefixOf_eq_take {a rest : List Char} (h : a.isPrefixOf rest = true) :
    a = rest.take a.length := by
  rw [List.isPrefixOf_iff_prefix] at h
  exact List.prefix_iff_eq_take.mp h

theorem not_isPrefixOf_of_ne_take {a b : List Char}
    (hlen : a.length ≤ b.length) (hne : a ≠ b.take a.length) {rest : List Char}
    (hb : b.isPrefixOf rest = true) : a.isPrefixOf rest = false := by
  by_contra hcon
  rw [Bool.not_eq_false] at hcon
  apply hne
  rw [isPrefixOf_eq_take hb, List.take_take, Nat.min_eq_left hlen,
    ← isPrefixOf_eq_take hcon]

theorem started_false_of_complete {rest : List Char}
    (h : ("Phase complete".data).isPrefixOf rest = true) :
    ("Phase started".data).isPrefixOf rest = false :=
  not_isPrefixOf_of_ne_take (by decide) (by decide) h

theorem started_false_of_abort {rest : List Char}
    (h : ("Simulation aborted".data).isPrefixOf rest = true) :
    ("Phase started".data).isPrefixOf rest = false :=
  not_isPrefixOf_of_ne_take (by decide) (by decide) h

theorem complete_false_of_abort {rest : List Char}
    (h : ("Simulation aborted".data).isPrefixOf rest = true) :
    ("Phase complete".data).isPrefixOf rest = false :=
  not_isPrefixOf_of_ne_take (by decide) (by decide) h

theorem temperature_false_of_abort {rest : List Char}
    (h : ("Simulation aborted".data).isPrefixOf rest = true) :
    ("Temperature".data).isPrefixOf rest = false :=
  not_isPrefixOf_of_ne_take (by decide) (by decide) h

theorem observation_false_of_abort {rest : List Char}
    (h : ("Simulation aborted".data).isPrefixOf rest = true) :
    ("Observation".data).isPrefixOf rest = false :=
  not_isPrefixOf_of_ne_take (by decide) (by decide) h

/-! ## Helper lemmas: the event-log state machine -/

theorem isCompleteLine_eq {l : String} {t : ℤ} {rest : List Char}
    (h : parseEventLine l.data = .ok (t, rest)) :
    isCompleteLine l = ("Phase complete".data).isPrefixOf rest := by
  unfold parseEventLine at h
  split at h
  · exact absurd h (by simp)
  next first r heq =>
    split at h
    · exact absurd h (by simp)
    next t' hpi =>
      simp only [Except.ok.injEq, Prod.mk.injEq] at h
      unfold isCompleteLine
      rw [heq, h.2]

theorem isAbortLine_eq {l : String} {t : ℤ} {rest : List Char}
    (h : parseEventLine l.data = .ok (t, rest)) :
    isAbortLine l = ("Simulation aborted".data).isPrefixOf rest := by
  unfold parseEventLine at h
  split at h
  · exact absurd h (by simp)
  next first r heq =>
    split at h
    · exact absurd h (by simp)
    next t' hpi =>
      simp only [Except.ok.injEq, Prod.mk.injEq] at h
      unfold isAbortLine
      rw [heq, h.2]

theorem parseEventLine_error_of_malformed {l : String}
    (h : isMalformedLine l = true) :
    parseEventLine l.data = .error .valueError := by
  unfold isMalformedLine at h
  split at h
  next heq => unfold parseEventLine; rw [heq]
  next first r heq =>
    have hpi : pyIntOfChars first = none := Option.isNone_iff_eq_none.mp h
    unfold parseEventLine
    rw [heq]
    simp only [hpi]

theorem parseStep_malformed (st : EventLogParser) {l : String}
    (h : isMalformedLine l = true) :
    parseStep st l.data = .error .valueError := by
  unfold parseStep
  rw [parseEventLine_error_of_malformed h]

/-- Effect of one parse step on `simulation_status` and
`equilibration_completed`, on a line that is not a `'Simulation aborted'`
line, starting from an unresolved status, when the line is not a *second*
`'Phase complete'` line. -/
theorem parseStep_ok_no_abort {st : EventLogParser} {l : String}
    {st1 : EventLogParser}
    (h : parseStep st l.data = .ok st1)
    (hab : isAbortLine l = false)
    (hs : st.simulation_status = none)
    (hcc : isCompleteLine l = true → st.equilibration_completed = none) :
    st1.simulation_status = none ∧
      (st1.equilibration_completed = none ↔
        (st.equilibration_completed = none ∧ isCompleteLine l = false)) := by
  unfold parseStep at h
  split at h
  · exact absurd h (by simp)
  next time_step rest heq =>
    dsimp only at h
    have hceq := isCompleteLine_eq heq
    have haeq := isAbortLine_eq heq
    split at h
    next hps =>
      have hcf : ("Phase complete".data).isPrefixOf rest = false := by
        cases hval : ("Phase complete".data).isPrefixOf rest
        · rfl
        · rw [started_false_of_complete hval] at hps; exact absurd hps (by simp)
      split at h <;>
        · simp only [Except.ok.injEq] at h
          subst h
          refine ⟨by simpa using hs, ?_⟩
          rw [hceq, hcf]
          simp
    next hps =>
      split at h
      next hpc =>
        have hcl : isCompleteLine l = true := by rw [hceq]; exact hpc
        split at h
        next heqc =>
          split at h
          · exact absurd h (by simp)
          next s hst =>
            simp only [Except.ok.injEq] at h
            subst h
            refine ⟨by simpa using hs, ?_⟩
            rw [hceq, hpc]
            simp
        next heqc =>
          exact absurd (hcc hcl) (by simpa using heqc)
      next hpc =>
        have hcf : isCompleteLine l = false := by
          rw [hceq]; cases hval : ("Phase complete".data).isPrefixOf rest
          · rfl
          · exact absurd hval (by simpa using hpc)
        split at h
        next =>
          simp only [Except.ok.injEq] at h
          subst h
          refine ⟨by simpa using hs, ?_⟩
          rw [hcf]
          simp
        next =>
          split at h
          next =>
            simp only [Except.ok.injEq] at h
            subst h
            refine ⟨by simpa using hs, ?_⟩
            rw [hcf]
            simp
          next =>
            split at h
            next hpa =>
              rw [haeq] at hab
              exact absurd hpa (by simp [hab])
            next =>
              simp only [Except.ok.injEq] at h
              subst h
              refine ⟨by simpa using hs, ?_⟩
              rw [hcf]
              simp

/-- Invariant of the `_parse` loop: while fewer than two `'Phase complete'`
lines (counting one already recorded in `equilibration_completed`) and no
`'Simulation aborted'` line have been seen, `simulation_status` stays
unresolved. -/
theorem parseLines_status_none_aux (lines : List String) :
    ∀ (st st' : EventLogParser),
      parseLines st lines = .ok st' →
      st.simulation_status = none →
      completeCount lines + (if st.equilibration_completed = none then 0 else 1) < 2 →
      (∀ l ∈ lines, isAbortLine l = false) →
      st'.simulation_status = none := by
  induction lines with
  | nil =>
    intro st st' h hs _ _
    unfold parseLines at h
    simp only [Except.ok.injEq] at h
    rw [← h]
    exact hs
  | cons l ls ih =>
    intro st st' h hs hbud hab
    unfold parseLines at h
    split at h
    · exact absurd h (by simp)
    next st1 hstep =>
      rw [completeCount, List.countP_cons] at hbud
      have hcc : isCompleteLine l = true → st.equilibration_completed = none := by
        intro hc
        by_contra hne
        simp [hc, hne] at hbud
        omega
      obtain ⟨h1, h2⟩ :=
        parseStep_ok_no_abort hstep (hab l (List.mem_cons_self l ls)) hs hcc
      refine ih st1 st' h h1 ?_ (fun l' hl' => hab l' (List.mem_cons_of_mem l hl'))
      rw [completeCount]
      cases hc : isCompleteLine l with
      | true =>
        have he := hcc hc
        have h1c : ¬ st1.equilibration_completed = none := by
          rw [h2, hc]; simp
        rw [if_neg h1c]
        simp [hc, he] at hbud
        omega
      | false =>
        have hiff : st1.equilibration_completed = none ↔
            st.equilibration_completed = none := by
          rw [h2, hc]; simp
        by_cases he : st.equilibration_completed = none
        · rw [if_pos (hiff.mpr he)]
          simp [hc, he] at hbud
          omega
        · rw [if_neg (fun hx => he (hiff.mp hx))]
          simp [hc, he] at hbud
          omega

theorem parseLines_append (st : EventLogParser) (xs ys : List String) :
    parseLines st (xs ++ ys) =
      match parseLines st xs with
      | .error e => .error e
      | .ok st' => parseLines st' ys := by
  induction xs generalizing st with
  | nil => rfl
  | cons x xs ih =>
    cases hps : parseStep st x.data with
    | error e => simp only [List.cons_append, parseLines, hps]
    | ok st1 => simp only [List.cons_append, parseLines, hps]; exact ih st1

/-- **C2.** Running the classifier on
`0: Phase started / 500: Phase complete / 501: Phase started /
1500: Phase complete` yields status `completed` with equilibration
duration `500` and observation duration `999`; in general a first
`'Phase complete'` line sets `equilibration_completed` and the duration
`completed − started`, and a second one sets `observation_completed`, the
observation duration, and `simulation_status = completed`. -/
theorem claim_C2 :
    (parseEventLog ["0: Phase started", "500: Phase complete",
        "501: Phase started", "1500: Phase complete"] =
      .ok { simulation_status := some .completed, equilibration_started := some 0,
            equilibration_completed := some 500, equilibration_time_steps := some 500,
            observation_started := some 501, observation_completed := some 1500,
            observation_time_steps := some 999, total_time_steps := 1500,
            temperature_adjustments := [], observations_recorded := [] }) ∧
    (∀ (st : EventLogParser) (line : List Char) (t : ℤ) (rest : List Char) (a : ℤ),
      parseEventLine line = .ok (t, rest) →
      ("Phase complete".data).isPrefixOf rest = true →
      st.equilibration_completed = none → st.equilibration_started = some a →
      parseStep st line =
        .ok { st with total_time_steps := t, equilibration_completed := some t,
                      equilibration_time_steps := some (t - a) }) ∧
    (∀ (st : EventLogParser) (line : List Char) (t : ℤ) (rest : List Char) (b c : ℤ),
      parseEventLine line = .ok (t, rest) →
      ("Phase complete".data).isPrefixOf rest = true →
      st.equilibration_completed = some b → st.observation_started = some c →
      parseStep st line =
        .ok { st with total_time_steps := t, observation_completed := some t,
                      observation_time_steps := some (t - c),
                      simulation_status := some .completed }) := by
  refine ⟨rfl, ?_, ?_⟩
  · intro st line t rest a hpl hpc hec hes
    simp [parseStep, hpl, started_false_of_complete hpc, hpc, hec, hes]
  · intro st line t rest b c hpl hpc hec hos
    simp [parseStep, hpl, started_false_of_complete hpc, hpc, hec, hos]

/-- Witness for C2: the general transitions instantiated at the concrete
second and fourth lines of the scenario log. -/
theorem claim_C2_witness :
    parseStep { equilibration_started := some 0 } "500: Phase complete".data =
      .ok { equilibration_started := some 0, total_time_steps := 500,
            equilibration_completed := some 500,
            equilibration_time_steps := some 500 } ∧
    parseStep { equilibration_started := some 0, equilibration_completed := some 500,
                equilibration_time_steps := some 500, observation_started := some 501,
                total_time_steps := 501 } "1500: Phase complete".data =
      .ok { equilibration_started := some 0, equilibration_completed := some 500,
            equilibration_time_steps := some 500, observation_started := some 501,
            total_time_steps := 1500, observation_completed := some 1500,
            observation_time_steps := some 999,
            simulation_status := some .completed } :=
  ⟨claim_C2.2.1 _ "500: Phase complete".data 500 "Phase complete".data 0
      rfl (by decide) rfl rfl,
    claim_C2.2.2 _ "1500: Phase complete".data 1500 "Phase complete".data 500 501
      rfl (by decide) rfl rfl⟩

/-- C7, counterexample to the claim as stated: on a log that ends without
reaching a terminal line, classification succeeds (no exception) but the
terminal status is *not* an explicit fourth `Incomplete` value — no such
member exists in `SimulationStatus`; `simulation_status` is simply left
`None`. -/
theorem claim_C7_counterexample :
    (parseEventLog ["0: Phase started", "500: Phase complete",
        "501: Phase started"]).map (fun st => st.simulation_status) =
      .ok Option.none := rfl

/-- **C7 (amended).** A log with fewer than two `'Phase complete'` lines
and no `'Simulation aborted'` line that parses without exception leaves
`simulation_status = None` — an unresolved status, not an explicit fourth
value: `SimulationStatus` has exactly the three members `completed`,
`equilibration_aborted`, `observation_aborted`. -/
theorem claim_C7 :
    (∀ (lines : List String) (st : EventLogParser),
      parseEventLog lines = .ok st →
      completeCount lines < 2 →
      (∀ l ∈ lines, isAbortLine l = false) →
      st.simulation_status = none) ∧
    (∀ s : SimulationStatus,
      s = .completed ∨ s = .equilibration_aborted ∨ s = .observation_aborted) := by
  constructor
  · intro lines st h hcc hab
    refine parseLines_status_none_aux lines {} st h rfl ?_ hab
    simpa using hcc
  · intro s
    cases s
    · exact Or.inl rfl
    · exact Or.inr (Or.inl rfl)
    · exact Or.inr (Or.inr rfl)

/-- Witness for C7 at the truncated scenario log. -/
theorem claim_C7_witness :
    ({ equilibration_started := some 0, equilibration_completed := some 500,
       equilibration_time_steps := some 500, observation_started := some 501,
       total_time_steps := 501 } : EventLogParser).simulation_status = none :=
  claim_C7.1 ["0: Phase started", "500: Phase complete", "501: Phase started"]
    _ rfl (by decide) (by decide)

/-- C8, counterexample to the claim as stated: a malformed line (here
`"garbage"`, which does not parse as `<integer>: <message>`) is not
silently skipped — `_parse` raises `ValueError` at it and the following
lines are never processed. -/
theorem claim_C8_counterexample :
    isMalformedLine "garbage" = true ∧
    parseEventLog ["0: Phase started", "garbage", "500: Phase complete"] =
      .error .valueError := ⟨rfl, rfl⟩

/-- **C8 (amended).** For every event log containing a malformed line,
classification raises `ValueError` when the loop reaches that line (the
preceding lines having parsed): the malformed line is not skipped, and
nothing after it contributes to the record. -/
theorem claim_C8 (pre : List String) (l : String) (post : List String)
    (st : EventLogParser) (hpre : parseLines {} pre = .ok st)
    (hl : isMalformedLine l = true) :
    parseEventLog (pre ++ l :: post) = .error .valueError := by
  unfold parseEventLog
  rw [parseLines_append, hpre]
  show parseLines st (l :: post) = .error .valueError
  unfold parseLines
  rw [parseStep_malformed st hl]

/-- Witness for C8. -/
theorem claim_C8_witness : parseEventLog ["oops"] = .error .valueError :=
  claim_C8 [] "oops" [] {} rfl rfl

/-! ## Helper lemmas: `divide` / `sweep_range` chunking -/

theorem divideAux_length {α : Type} (seq : List α) (q r : ℕ) :
    ∀ (k i stop : ℕ), (divideAux seq q r k i stop).length = k := by
  intro k
  induction k with
  | zero => intro i stop; rfl
  | succ k ih => intro i stop; simp [divideAux, ih]

theorem sizeSum_eq (q r : ℕ) : ∀ (k i : ℕ),
    sizeSum q r k i = q * k + min k (r + 1 - i) := by
  intro k
  induction k with
  | zero => intro i; simp [sizeSum]
  | succ k ih =>
    intro i
    rw [sizeSum, ih (i + 1), Nat.mul_succ]
    split_ifs with h <;> omega

theorem divideAux_join {α : Type} (seq : List α) (q r : ℕ) :
    ∀ (k i stop : ℕ),
      (divideAux seq q r k i stop).flatten = (seq.drop stop).take (sizeSum q r k i) := by
  intro k
  induction k with
  | zero => intro i stop; simp [divideAux, sizeSum]
  | succ k ih =>
    intro i stop
    rw [divideAux, sizeSum]
    simp only [List.flatten_cons]
    rw [ih (i + 1) (stop + (if i ≤ r then q + 1 else q))]
    rw [List.take_add]
    congr 1
    rw [List.drop_drop, Nat.add_comm]

theorem divideAux_mem_length {α : Type} (seq : List α) (q r : ℕ) :
    ∀ (k i stop : ℕ), stop + sizeSum q r k i ≤ seq.length →
      ∀ c ∈ divideAux seq q r k i stop, c.length = q ∨ c.length = q + 1 := by
  intro k
  induction k with
  | zero => intro i stop _ c hc; exact absurd hc (by simp [divideAux])
  | succ k ih =>
    intro i stop hle c hc
    rw [sizeSum] at hle
    rw [divideAux] at hc
    rcases List.mem_cons.mp hc with hhd | htl
    · subst hhd
      rw [List.length_take, List.length_drop]
      split_ifs at hle ⊢ with h
      · right; omega
      · left; omega
    · exact ih (i + 1) (stop + (if i ≤ r then q + 1 else q)) (by omega) c htl

/-- **C3.** For every grid-point sequence and every `chunk_count ≥ 1`, the
chunks `sweep_range` draws from `divide` for `chunk_index = 0 … c-1` are the
members of one partition of the sequence: listed in chunk-index order they
concatenate back to the original sequence (hence they are pairwise disjoint
contiguous slices of the canonical enumeration), there are exactly `c` of
them, and any two sizes differ by at most 1. -/
theorem claim_C3 {α : Type} (points : List α) (c : ℕ) (hc : 1 ≤ c) :
    ∃ chunks : List (List α),
      divide c points = some chunks ∧
      (∀ i, i < c → sweepRangeChunk points c i = chunks.get? i) ∧
      chunks.length = c ∧
      chunks.flatten = points ∧
      ∀ c₁ ∈ chunks, ∀ c₂ ∈ chunks, c₁.length ≤ c₂.length + 1 := by
  have hc0 : ¬ c = 0 := by omega
  have hmod : points.length % c < c := Nat.mod_lt _ (by omega)
  have hsum : sizeSum (points.length / c) (points.length % c) c 1 = points.length := by
    rw [sizeSum_eq]
    have hmin : min c (points.length % c + 1 - 1) = points.length % c := by omega
    rw [hmin, Nat.mul_comm]
    exact Nat.div_add_mod points.length c
  refine ⟨divideAux points (points.length / c) (points.length % c) c 1 0,
    ?_, ?_, divideAux_length points _ _ c 1 0, ?_, ?_⟩
  · unfold divide
    rw [if_neg hc0]
  · intro i _
    unfold sweepRangeChunk divide
    rw [if_neg hc0]
    rfl
  · rw [divideAux_join, hsum]
    simp
  · intro c₁ h₁ c₂ h₂
    have hm := divideAux_mem_length points (points.length / c) (points.length % c)
      c 1 0 (by omega)
    rcases hm c₁ h₁ with h | h <;> rcases hm c₂ h₂ with h' | h' <;> omega

/-- Witness for C3 on a five-element sequence split into two chunks. -/
theorem claim_C3_witness :
    1 ≤ 2 ∧ ∃ chunks : List (List ℕ),
      divide 2 [1, 2, 3, 4, 5] = some chunks ∧
      (∀ i, i < 2 → sweepRangeChunk [1, 2, 3, 4, 5] 2 i = chunks.get? i) ∧
      chunks.length = 2 ∧
      chunks.flatten = [1, 2, 3, 4, 5] ∧
      ∀ c₁ ∈ chunks, ∀ c₂ ∈ chunks, c₁.length ≤ c₂.length + 1 :=
  ⟨by decide, claim_C3 [1, 2, 3, 4, 5] 2 (by decide)⟩

/-! ## `linspace` and the grid (claim C9) -/

/-- C9, counterexample to the claim as stated: the claim admits step count
`m = 1` (`m ≥ 1`), but with one point and `endpoint=True` the
comprehension evaluates `0 / 0` (`denominator = points - 1 = 0`) and
`linspace` raises `ZeroDivisionError` — no grid axis is sampled at all. -/
theorem claim_C9_counterexample :
    linspace 0 1 1 true = .error .zeroDivisionError := rfl

/-- **C9 (amended).** For step counts `m, n ≥ 2`, each linspace axis has
exactly the requested number of points with first value `start` and last
value `stop` exactly (in the exact rational embedding of Python float
arithmetic), and the enumerated grid is the full cross product with `m·n`
points.  (For a step count of 1, `linspace` divides by zero; see the
counterexample.) -/
theorem claim_C9 :
    (∀ (a b : ℚ) (m : ℤ), 2 ≤ m →
      ∃ l : List ℚ, linspace a b m true = .ok l ∧
        l.length = m.toNat ∧ l.get? 0 = some a ∧
        l.get? (m.toNat - 1) = some b) ∧
    (∀ (ta tb da db : ℚ) (m n : ℤ), 2 ≤ m → 2 ≤ n →
      ∃ g : List (ℚ × ℚ), sweepGridPoints ta tb m da db n = .ok g ∧
        g.length = m.toNat * n.toNat) := by
  have main : ∀ (a b : ℚ) (m : ℤ), 2 ≤ m →
      ∃ l : List ℚ, linspace a b m true = .ok l ∧
        l.length = m.toNat ∧ l.get? 0 = some a ∧
        l.get? (m.toNat - 1) = some b := by
    intro a b m hm
    have hm0 : ¬ m ≤ 0 := by omega
    have hden : ¬ (m - 1 = 0) := by omega
    have hdenq : ((m - 1 : ℤ) : ℚ) ≠ 0 := by
      exact_mod_cast hden
    refine ⟨(List.range m.toNat).map
      (fun count : ℕ => a + ((count : ℚ) / ((m - 1 : ℤ) : ℚ)) * (b - a)), ?_, ?_, ?_, ?_⟩
    · simp [linspace, hm0, hden]
    · simp
    · rw [List.get?_map, List.get?_range (by omega : 0 < m.toNat)]
      simp
    · rw [List.get?_map, List.get?_range (by omega : m.toNat - 1 < m.toNat)]
      have hcast : ((m.toNat - 1 : ℕ) : ℚ) = ((m - 1 : ℤ) : ℚ) := by
        have h2 : ((m - 1).toNat : ℤ) = m - 1 := Int.toNat_of_nonneg (by omega)
        rw [show m.toNat - 1 = (m - 1).toNat by omega]
        exact_mod_cast congrArg (fun z : ℤ => (z : ℚ)) h2
      rw [Option.map_some']
      congr 1
      rw [hcast, div_self hdenq]
      ring
  refine ⟨main, ?_⟩
  intro ta tb da db m n hm hn
  obtain ⟨lt, hlt, hltlen, _, _⟩ := main ta tb m hm
  obtain ⟨ld, hld, hldlen, _, _⟩ := main da db n hn
  refine ⟨List.product lt ld, ?_, ?_⟩
  · simp only [sweepGridPoints, hlt, hld]
  · have hsp : lt.product ld = lt ×ˢ ld := rfl
    rw [hsp, List.length_product, hltlen, hldlen]

/-! ## Helper lemmas: result aggregation (claim C4) -/

theorem collectStep_ok {res : SweepResultBuckets} {cat : Option Bucket}
    {d : String} {ls : List String} {res1 : SweepResultBuckets} {b : Bucket}
    (h : collectStep res cat d ls = .ok (res1, b)) :
    res1 = appendBucket res b d := by
  unfold collectStep at h
  split at h
  · exact absurd h (by simp)
  next p hp =>
    dsimp only at h
    split at h
    · exact absurd h (by simp)
    next b2 hb2 =>
      simp only [Except.ok.injEq, Prod.mk.injEq] at h
      rw [← h.1, ← h.2]

theorem appendBucket_concat (res : SweepResultBuckets) (b : Bucket) (d : String) :
    ((appendBucket res b d).completed ++
        (appendBucket res b d).equilibration_aborted ++
        (appendBucket res b d).observation_aborted).Perm
      ((res.completed ++ res.equilibration_aborted ++ res.observation_aborted)
        ++ [d]) := by
  cases b with
  | completed =>
    simp only [appendBucket, List.append_assoc]
    exact List.Perm.append_left res.completed
      (List.perm_append_comm.trans (List.Perm.of_eq
        (List.append_assoc res.equilibration_aborted res.observation_aborted [d])))
  | equilibration_aborted =>
    simp only [appendBucket, List.append_assoc]
    exact List.Perm.append_left res.completed
      (List.Perm.append_left res.equilibration_aborted List.perm_append_comm)
  | observation_aborted =>
    simp only [appendBucket, List.append_assoc]
    exact List.Perm.refl _

theorem collectResults_perm :
    ∀ (points : List (String × List String)) (res0 : SweepResultBuckets)
      (cat : Option Bucket) (res : SweepResultBuckets),
      collectResults res0 cat points = .ok res →
      (res.completed ++ res.equilibration_aborted ++ res.observation_aborted).Perm
        ((res0.completed ++ res0.equilibration_aborted ++ res0.observation_aborted)
          ++ points.map Prod.fst) := by
  intro points
  induction points with
  | nil =>
    intro res0 cat res h
    unfold collectResults at h
    simp only [Except.ok.injEq] at h
    subst h
    simp
  | cons p rest ih =>
    intro res0 cat res h
    obtain ⟨d, ls⟩ := p
    unfold collectResults at h
    split at h
    · exact absurd h (by simp)
    next res1 b hstep =>
      rw [collectStep_ok hstep] at h
      refine (ih _ _ _ h).trans ?_
      refine ((appendBucket_concat res0 b d).append_right (rest.map Prod.fst)).trans ?_
      simp [List.append_assoc]

theorem getSweepResult_foldl_perm :
    ∀ (points : List (String × String)) (res0 : SweepResultPaths),
      ((points.foldl getSweepResultStep res0).completed ++
          (points.foldl getSweepResultStep res0).equilibration_aborted ++
          (points.foldl getSweepResultStep res0).observation_aborted).Perm
        ((res0.completed ++ res0.equilibration_aborted ++ res0.observation_aborted)
          ++ points.map Prod.fst) := by
  intro points
  induction points with
  | nil => intro res0; simp
  | cons p rest ih =>
    intro res0
    rw [List.foldl_cons]
    refine (ih (getSweepResultStep res0 p)).trans ?_
    have hstep : ((getSweepResultStep res0 p).completed ++
        (getSweepResultStep res0 p).equilibration_aborted ++
        (getSweepResultStep res0 p).observation_aborted).Perm
        ((res0.completed ++ res0.equilibration_aborted ++ res0.observation_aborted)
          ++ [p.1]) := by
      unfold getSweepResultStep
      cases getSimulationResult p.2 with
      | completed =>
        simp only [List.append_assoc]
        exact List.Perm.append_left res0.completed
          (List.perm_append_comm.trans (List.Perm.of_eq
            (List.append_assoc res0.equilibration_aborted res0.observation_aborted [p.1])))
      | equilibration_aborted =>
        simp only [List.append_assoc]
        exact List.Perm.append_left res0.completed
          (List.Perm.append_left res0.equilibration_aborted List.perm_append_comm)
      | observation_aborted =>
        simp only [List.append_assoc]
        exact List.Perm.refl _
    refine (hstep.append_right (rest.map Prod.fst)).trans ?_
    simp [List.append_assoc]

/-- C4, counterexample to the claim as stated: a single processed grid
point whose event log reaches no terminal line.  The `if`/`elif` chain of
`_collect_results` matches no branch, `category` is unbound on this first
iteration, and `category.append` raises `NameError` — the buckets do not
contain the processed point at all. -/
theorem claim_C4_counterexample :
    sweepResultOf [("A", ["0: Phase started"])] = .error .nameError := rfl

/-- **C4 (amended).** Whenever `_collect_results` completes without
exception (which requires the *first* processed point's log to reach a
terminal line; a later point with no terminal line is filed into the bucket
`category` still references from the previous iteration), the three buckets
together contain exactly the processed grid points — combined size equal to
the number of points, none missing, none duplicated.  The last-line
classifier `_get_sweep_result` satisfies the partition property
unconditionally for points whose event logs exist. -/
theorem claim_C4 :
    (∀ (points : List (String × List String)) (res : SweepResultBuckets),
      sweepResultOf points = .ok res →
      (res.completed ++ res.equilibration_aborted ++
        res.observation_aborted).Perm (points.map Prod.fst)) ∧
    (∀ points2 : List (String × String),
      ((getSweepResult points2).completed ++
          (getSweepResult points2).equilibration_aborted ++
          (getSweepResult points2).observation_aborted).Perm
        (points2.map Prod.fst)) := by
  constructor
  · intro points res h
    have := collectResults_perm points {} none res h
    simpa using this
  · intro points2
    have := getSweepResult_foldl_perm points2 {}
    simpa [getSweepResult] using this

/-- Witness for C4: a three-point pass with one of each terminal status,
plus a fourth unresolved point filed after the first. -/
theorem claim_C4_witness :
    ((["A"] ++ ["B"] ++ ["C", "D"]) : List String).Perm ["A", "B", "C", "D"] :=
  claim_C4.1
    [("A", ["0: Phase started", "400: Phase complete", "401: Phase started",
        "800: Phase complete"]),
     ("B", ["0: Phase started", "300: Simulation aborted"]),
     ("C", ["0: Phase started", "500: Phase complete", "501: Phase started",
        "800: Simulation aborted"]),
     ("D", ["0: Phase started"])]
    { completed := ["A"], equilibration_aborted := ["B"],
      observation_aborted := ["C", "D"] } (by rfl)

/-- Witness for C9 with a 2-point temperature axis over `[0, 1]` and a
3-point density axis. -/
theorem claim_C9_witness :
    (2 ≤ (2 : ℤ)) ∧
    (∃ l : List ℚ, linspace 0 1 2 true = .ok l ∧
      l.length = (2 : ℤ).toNat ∧ l.get? 0 = some 0 ∧
      l.get? ((2 : ℤ).toNat - 1) = some 1) ∧
    (∃ g : List (ℚ × ℚ), sweepGridPoints 0 1 2 0 1 3 = .ok g ∧
      g.length = (2 : ℤ).toNat * (3 : ℤ).toNat) :=
  ⟨by decide, claim_C9.1 0 1 2 (by decide),
    claim_C9.2 0 1 0 1 2 3 (by decide) (by decide)⟩

/-! ## Helper lemmas: `_create_simulations` on the shared-section store
(claims C1, C6, C10) -/

theorem create_simulation_point_int (sweep : SweepConfiguration) (n : ℤ)
    (td : ℚ × ℚ) (a : SystemRec) (b : EquilibrationRec) (c : ObservationRec)
    (d : FilepathsRec) (disk : Disk) (k : ℕ) :
    create_simulation_point sweep (.int n) td (singletonStore a b c d, disk, k) =
      ((singletonStore (derivedSystem sweep td.1 td.2 n)
          (derivedEquilibration sweep td.1 td.2) (derivedObservation sweep td.1 td.2)
          (prefixedFilepaths (pointDir sweep td) (derivedFilepaths sweep)),
        diskWrite disk (pointPath sweep td) (derivedConfigData sweep td n), k),
       { run_cfg := mkConfiguration, path := pointPath sweep td,
         written := derivedConfigData sweep td n,
         sim := ⟨derivedSystem sweep td.1 td.2 n,
            derivedEquilibration sweep td.1 td.2,
            derivedObservation sweep td.1 td.2,
            prefixedFilepaths (pointDir sweep td) (derivedFilepaths sweep)⟩ }) := rfl

theorem create_simulation_point_fn (sweep : SweepConfiguration) (f : ℕ → ℤ)
    (td : ℚ × ℚ) (a : SystemRec) (b : EquilibrationRec) (c : ObservationRec)
    (d : FilepathsRec) (disk : Disk) (k : ℕ) :
    create_simulation_point sweep (.fn f) td (singletonStore a b c d, disk, k) =
      ((singletonStore (derivedSystem sweep td.1 td.2 (f k))
          (derivedEquilibration sweep td.1 td.2) (derivedObservation sweep td.1 td.2)
          (prefixedFilepaths (pointDir sweep td) (derivedFilepaths sweep)),
        diskWrite disk (pointPath sweep td) (derivedConfigData sweep td (f k)),
        k + 1),
       { run_cfg := mkConfiguration, path := pointPath sweep td,
         written := derivedConfigData sweep td (f k),
         sim := ⟨derivedSystem sweep td.1 td.2 (f k),
            derivedEquilibration sweep td.1 td.2,
            derivedObservation sweep td.1 td.2,
            prefixedFilepaths (pointDir sweep td) (derivedFilepaths sweep)⟩ }) := rfl

theorem create_simulation_point_none_nofile (sweep : SweepConfiguration)
    (td : ℚ × ℚ) (a : SystemRec) (b : EquilibrationRec) (c : ObservationRec)
    (d : FilepathsRec) (disk : Disk) (k : ℕ)
    (hdl : diskLookup disk (pointPath sweep td) = none) :
    create_simulation_point sweep .none td (singletonStore a b c d, disk, k) =
      ((singletonStore (derivedSystem sweep td.1 td.2 a.random_seed)
          (derivedEquilibration sweep td.1 td.2) (derivedObservation sweep td.1 td.2)
          (prefixedFilepaths (pointDir sweep td) (derivedFilepaths sweep)),
        diskWrite disk (pointPath sweep td)
          (derivedConfigData sweep td a.random_seed), k),
       { run_cfg := mkConfiguration, path := pointPath sweep td,
         written := derivedConfigData sweep td a.random_seed,
         sim := ⟨derivedSystem sweep td.1 td.2 a.random_seed,
            derivedEquilibration sweep td.1 td.2,
            derivedObservation sweep td.1 td.2,
            prefixedFilepaths (pointDir sweep td) (derivedFilepaths sweep)⟩ }) := by
  rw [pointPath, pointDir] at hdl
  dsimp only [create_simulation_point]
  rw [hdl]
  rfl

theorem create_simulation_point_none_file (sweep : SweepConfiguration)
    (td : ℚ × ℚ) (a : SystemRec) (b : EquilibrationRec) (c : ObservationRec)
    (d : FilepathsRec) (disk : Disk) (k : ℕ) (fd : ConfigData)
    (hdl : diskLookup disk (pointPath sweep td) = some fd) :
    create_simulation_point sweep .none td (singletonStore a b c d, disk, k) =
      ((singletonStore fd.system fd.equilibration fd.observation
          (prefixedFilepaths (pointDir sweep td) fd.filepaths),
        diskWrite disk (pointPath sweep td) fd, k),
       { run_cfg := mkConfiguration, path := pointPath sweep td,
         written := fd,
         sim := ⟨fd.system, fd.equilibration, fd.observation,
            prefixedFilepaths (pointDir sweep td) fd.filepaths⟩ }) := by
  rw [pointPath, pointDir] at hdl
  dsimp only [create_simulation_point]
  rw [hdl]
  rfl

theorem diskLookup_mem :
    ∀ (disk : Disk) (path : String) (fd : ConfigData),
      diskLookup disk path = some fd → ∃ p, (p, fd) ∈ disk := by
  intro disk
  induction disk with
  | nil => intro path fd h; exact absurd h (by simp [diskLookup])
  | cons pf rest ih =>
    intro path fd h
    obtain ⟨p, fd'⟩ := pf
    unfold diskLookup at h
    split at h
    · simp only [Option.some.injEq] at h
      exact ⟨p, by rw [h]; exact List.mem_cons_self _ _⟩
    · obtain ⟨p', hp'⟩ := ih path fd h
      exact ⟨p', List.mem_cons_of_mem _ hp'⟩

theorem createSimAux_int_seed (sweep : SweepConfiguration) (n : ℤ) :
    ∀ (points : List (ℚ × ℚ)) (a : SystemRec) (b : EquilibrationRec)
      (c : ObservationRec) (d : FilepathsRec) (disk : Disk) (k : ℕ),
      ∀ e ∈ (create_simulations_aux sweep (.int n) points
          (singletonStore a b c d, disk, k)).2,
        e.written.system.random_seed = n := by
  intro points
  induction points with
  | nil =>
    intro a b c d disk k e he
    exact absurd he (by simp [create_simulations_aux])
  | cons td rest ih =>
    intro a b c d disk k e he
    rw [create_simulations_aux, create_simulation_point_int] at he
    simp only [List.mem_cons] at he
    rcases he with he | he
    · rw [he]; rfl
    · exact ih _ _ _ _ _ _ e he

theorem createSimAux_fn_seed (sweep : SweepConfiguration) (f : ℕ → ℤ) :
    ∀ (points : List (ℚ × ℚ)) (a : SystemRec) (b : EquilibrationRec)
      (c : ObservationRec) (d : FilepathsRec) (disk : Disk) (k i : ℕ)
      (e : SimulationDispatch),
      (create_simulations_aux sweep (.fn f) points
          (singletonStore a b c d, disk, k)).2.get? i = some e →
      e.written.system.random_seed = f (k + i) := by
  intro points
  induction points with
  | nil =>
    intro a b c d disk k i e he
    exact absurd he (by simp [create_simulations_aux])
  | cons td rest ih =>
    intro a b c d disk k i e he
    rw [create_simulations_aux, create_simulation_point_fn] at he
    cases i with
    | zero =>
      simp only [List.get?_cons_zero, Option.some.injEq] at he
      rw [← he, Nat.add_zero]
      rfl
    | succ i =>
      simp only [List.get?_cons_succ] at he
      have := ih _ _ _ _ _ (k + 1) i e he
      rw [this]
      congr 1
      omega

theorem createSimAux_none_uniform (sweep : SweepConfiguration) (s0 : ℤ) :
    ∀ (points : List (ℚ × ℚ)) (a : SystemRec) (b : EquilibrationRec)
      (c : ObservationRec) (d : FilepathsRec) (disk : Disk) (k : ℕ),
      a.random_seed = s0 →
      (∀ pf ∈ disk, (pf : String × ConfigData).2.system.random_seed = s0) →
      ∀ e ∈ (create_simulations_aux sweep .none points
          (singletonStore a b c d, disk, k)).2,
        e.written.system.random_seed = s0 := by
  intro points
  induction points with
  | nil =>
    intro a b c d disk k _ _ e he
    exact absurd he (by simp [create_simulations_aux])
  | cons td rest ih =>
    intro a b c d disk k ha hdisk e he
    cases hdl : diskLookup disk (pointPath sweep td) with
    | none =>
      rw [create_simulations_aux,
        create_simulation_point_none_nofile sweep td a b c d disk k hdl] at he
      simp only [List.mem_cons] at he
      rcases he with he | he
      · rw [he]; exact ha
      · refine ih _ _ _ _ _ _ (by exact ha) ?_ e he
        intro pf hpf
        rcases List.mem_cons.mp hpf with hpf | hpf
        · rw [hpf]; exact ha
        · exact hdisk pf hpf
    | some fd =>
      have hfd : fd.system.random_seed = s0 := by
        obtain ⟨p, hp⟩ := diskLookup_mem disk (pointPath sweep td) fd hdl
        exact hdisk (p, fd) hp
      rw [create_simulations_aux,
        create_simulation_point_none_file sweep td a b c d disk k fd hdl] at he
      simp only [List.mem_cons] at he
      rcases he with he | he
      · rw [he]; exact hfd
      · refine ih _ _ _ _ _ _ (by exact hfd) ?_ e he
        intro pf hpf
        rcases List.mem_cons.mp hpf with hpf | hpf
        · rw [hpf]; exact hfd
        · exact hdisk pf hpf

theorem create_simulation_point_run_cfg (sweep : SweepConfiguration)
    (rs : RandomSeedArg) (td : ℚ × ℚ) (st : Store × Disk × ℕ) :
    ((create_simulation_point sweep rs td st).2).run_cfg = mkConfiguration := by
  obtain ⟨s, disk, k⟩ := st
  cases rs with
  | none => rfl
  | int n => rfl
  | fn f => rfl

theorem createSimAux_run_cfg (sweep : SweepConfiguration) (rs : RandomSeedArg) :
    ∀ (points : List (ℚ × ℚ)) (st : Store × Disk × ℕ),
      ∀ e ∈ (create_simulations_aux sweep rs points st).2,
        e.run_cfg = mkConfiguration := by
  intro points
  induction points with
  | nil =>
    intro st e he
    exact absurd he (by simp [create_simulations_aux])
  | cons td rest ih =>
    intro st e he
    rcases hstep : create_simulation_point sweep rs td st with ⟨st', e0⟩
    rw [create_simulations_aux, hstep] at he
    dsimp only at he
    simp only [List.mem_cons] at he
    rcases he with he | he
    · have hrc := create_simulation_point_run_cfg sweep rs td st
      rw [hstep] at hrc
      rw [he]
      exact hrc
    · exact ih st' e he

/-- C1, counterexample to the claim as stated: `random_seed=None`, two grid
points, a run-config file recording seed 7 on disk for the first point only.
The claim's case (4) requires the second point (no file on disk at its path)
to keep the fresh `RunConfig`'s *default* seed (here 0); the code instead
gives it seed 7, because all derived configurations share one `_System`
object and case (3) at the first point already mutated its seed. -/
theorem claim_C1_counterexample :
    ((create_simulations cexSweep .none [(1, 1), (2, 1)] 0
        [("A/run.ini", cexSeed7File)]).2.map
      (fun e => (e.path, e.written.system.random_seed))) =
      [("A/run.ini", 7), ("B/run.ini", 7)] ∧ (7 : ℤ) ≠ 0 :=
  ⟨rfl, by decide⟩

/-- **C1 (amended).** Seed precedence as implemented by
`_create_simulations`: (1) an explicit `int` seed is recorded for every
point regardless of disk state; (2) a seed function is invoked once per
point, in enumeration order; (3) with no explicit seed, a point whose
run-config file exists on disk reuses the seed recorded in that file;
(4) otherwise the derived config keeps whatever seed the shared `_System`
record holds when the point is processed — which is the fresh `RunConfig`
default seed only until some earlier point of the same invocation assigns a
different one; in particular (5) when every pre-existing file records the
default seed (e.g. no file exists at all), every derived config keeps the
default seed. -/
theorem claim_C1 :
    (∀ (sweep : SweepConfiguration) (n : ℤ) (points : List (ℚ × ℚ))
       (seed0 : ℤ) (disk : Disk),
      ∀ e ∈ (create_simulations sweep (.int n) points seed0 disk).2,
        e.written.system.random_seed = n) ∧
    (∀ (sweep : SweepConfiguration) (f : ℕ → ℤ) (points : List (ℚ × ℚ))
       (seed0 : ℤ) (disk : Disk) (i : ℕ) (e : SimulationDispatch),
      (create_simulations sweep (.fn f) points seed0 disk).2.get? i = some e →
        e.written.system.random_seed = f i) ∧
    (∀ (sweep : SweepConfiguration) (td : ℚ × ℚ) (a : SystemRec)
       (b : EquilibrationRec) (c : ObservationRec) (d : FilepathsRec)
       (disk : Disk) (k : ℕ) (fd : ConfigData),
      diskLookup disk (pointPath sweep td) = some fd →
      ((create_simulation_point sweep .none td
          (singletonStore a b c d, disk, k)).2).written.system.random_seed =
        fd.system.random_seed) ∧
    (∀ (sweep : SweepConfiguration) (td : ℚ × ℚ) (a : SystemRec)
       (b : EquilibrationRec) (c : ObservationRec) (d : FilepathsRec)
       (disk : Disk) (k : ℕ),
      diskLookup disk (pointPath sweep td) = none →
      ((create_simulation_point sweep .none td
          (singletonStore a b c d, disk, k)).2).written.system.random_seed =
        a.random_seed) ∧
    (∀ (sweep : SweepConfiguration) (points : List (ℚ × ℚ)) (seed0 : ℤ)
       (disk : Disk),
      (∀ pf ∈ disk, (pf : String × ConfigData).2.system.random_seed = seed0) →
      ∀ e ∈ (create_simulations sweep .none points seed0 disk).2,
        e.written.system.random_seed = seed0) := by
  refine ⟨?_, ?_, ?_, ?_, ?_⟩
  · intro sweep n points seed0 disk e he
    exact createSimAux_int_seed sweep n points { random_seed := seed0 } {} {} {}
      disk 0 e he
  · intro sweep f points seed0 disk i e he
    have := createSimAux_fn_seed sweep f points { random_seed := seed0 } {} {} {}
      disk 0 i e he
    rwa [Nat.zero_add] at this
  · intro sweep td a b c d disk k fd h
    rw [create_simulation_point_none_file sweep td a b c d disk k fd h]
  · intro sweep td a b c d disk k h
    rw [create_simulation_point_none_nofile sweep td a b c d disk k h]
    rfl
  · intro sweep points seed0 disk hdisk e he
    exact createSimAux_none_uniform sweep seed0 points { random_seed := seed0 }
      {} {} {} disk 0 rfl hdisk e he

/-- Witness for C1: precedence cases (3) and (4) at the concrete two-point
scenario state. -/
theorem claim_C1_witness :
    ((create_simulation_point cexSweep .none (1, 1)
        (singletonStore { random_seed := 0 } {} {} {},
          [("A/run.ini", cexSeed7File)], 0)).2).written.system.random_seed = 7 ∧
    ((create_simulation_point cexSweep .none (2, 1)
        (singletonStore { random_seed := 0 } {} {} {},
          [], 0)).2).written.system.random_seed = 0 :=
  ⟨claim_C1.2.2.1 cexSweep (1, 1) { random_seed := 0 } {} {} {}
      [("A/run.ini", cexSeed7File)] 0 cexSeed7File (by rfl),
    claim_C1.2.2.2.1 cexSweep (2, 1) { random_seed := 0 } {} {} {} [] 0 (by rfl)⟩

/-- C6, counterexample to the claim as stated: a fresh one-point sweep.
The run-config file persisted at the point's path records the *unqualified*
output filenames (`events.log`), not the directory-prefixed ones
(`A/events.log`): `run_cfg.write` runs before `_prepend_simulation_dir`,
not after. -/
theorem claim_C6_counterexample :
    ((create_simulations cexSweep (.int 5) [(1, 1)] 0 []).2.map
      (fun e => (e.written.filepaths.event_log, e.sim.filepaths.event_log))) =
      [("events.log", "A/events.log")] ∧
    ((diskLookup (create_simulations cexSweep (.int 5) [(1, 1)] 0 []).1.2.1
        "A/run.ini").map (fun fd => fd.filepaths.event_log)) =
      some "events.log" ∧
    ("events.log" : String) ≠ "A/events.log" :=
  ⟨rfl, rfl, by decide⟩

/-- **C6 (amended).** For every grid point, persistence precedes path
prefixing: the run-config file written at the point's path records exactly
the dispatched entry's `written` values, whose four output paths are *not*
prefixed by the point's directory — the dispatched `Simulation` instead
receives those same persisted paths, each prefixed by the point's
directory.  The persisted paths equal the `SweepSpec`'s unqualified
filenames whenever seed resolution does not re-read an existing file
(explicit `int` seed, seed function, or no file at the point's path); when
`random_seed` is `None` and a file exists at the point's path,
`Configuration.from_file` overwrites the shared `filepaths` section with
that file's recorded paths, so the re-written file reproduces the existing
file's paths, which need not be the `SweepSpec`'s filenames. -/
theorem claim_C6 (sweep : SweepConfiguration) (rs : RandomSeedArg)
    (td : ℚ × ℚ) (a : SystemRec) (b : EquilibrationRec) (c : ObservationRec)
    (d : FilepathsRec) (disk : Disk) (k : ℕ) :
    ((create_simulation_point sweep rs td
        (singletonStore a b c d, disk, k)).2).sim.filepaths =
      prefixedFilepaths (pointDir sweep td)
        (((create_simulation_point sweep rs td
          (singletonStore a b c d, disk, k)).2).written.filepaths) ∧
    diskLookup ((create_simulation_point sweep rs td
        (singletonStore a b c d, disk, k)).1.2.1) (pointPath sweep td) =
      some (((create_simulation_point sweep rs td
        (singletonStore a b c d, disk, k)).2).written) ∧
    ((rs = RandomSeedArg.none → diskLookup disk (pointPath sweep td) = none) →
      ((create_simulation_point sweep rs td
          (singletonStore a b c d, disk, k)).2).written.filepaths =
        derivedFilepaths sweep) ∧
    (∀ fd : ConfigData, rs = RandomSeedArg.none →
      diskLookup disk (pointPath sweep td) = some fd →
      ((create_simulation_point sweep rs td
          (singletonStore a b c d, disk, k)).2).written.filepaths =
        fd.filepaths) := by
  cases rs with
  | none =>
    cases hdl : diskLookup disk (pointPath sweep td) with
    | none =>
      rw [create_simulation_point_none_nofile sweep td a b c d disk k hdl]
      refine ⟨rfl, by simp [diskWrite, diskLookup], fun _ => rfl, ?_⟩
      intro fd _ hsome
      exact Option.noConfusion hsome
    | some fd0 =>
      rw [create_simulation_point_none_file sweep td a b c d disk k fd0 hdl]
      refine ⟨rfl, by simp [diskWrite, diskLookup], ?_, ?_⟩
      · intro himp
        exact Option.noConfusion (himp rfl)
      · intro fd _ hsome
        rw [Option.some.injEq] at hsome
        rw [← hsome]
  | int n =>
    rw [create_simulation_point_int]
    exact ⟨rfl, by simp [diskWrite, diskLookup], fun _ => rfl,
      fun fd h => RandomSeedArg.noConfusion h⟩
  | fn f =>
    rw [create_simulation_point_fn]
    exact ⟨rfl, by simp [diskWrite, diskLookup], fun _ => rfl,
      fun fd h => RandomSeedArg.noConfusion h⟩

/-- Witness for C6: a fresh one-point dispatch (explicit seed, empty disk)
persists the SweepSpec's plain filenames and hands the `Simulation` the
`"A/"`-prefixed paths; a re-dispatch (`random_seed=None`, existing file
recording `"X/events.log"`) re-writes the existing file's path, not the
SweepSpec's filename. -/
theorem claim_C6_witness :
    ((create_simulation_point cexSweep (.int 5) (1, 1)
        (singletonStore { random_seed := 0 } {} {} {}, [], 0)).2).written.filepaths =
      derivedFilepaths cexSweep ∧
    ((create_simulation_point cexSweep (.int 5) (1, 1)
        (singletonStore { random_seed := 0 } {} {} {}, [], 0)).2).sim.filepaths =
      prefixedFilepaths (pointDir cexSweep (1, 1)) (derivedFilepaths cexSweep) ∧
    diskLookup ((create_simulation_point cexSweep (.int 5) (1, 1)
        (singletonStore { random_seed := 0 } {} {} {}, [], 0)).1.2.1)
        (pointPath cexSweep (1, 1)) =
      some (((create_simulation_point cexSweep (.int 5) (1, 1)
        (singletonStore { random_seed := 0 } {} {} {}, [], 0)).2).written) ∧
    ((create_simulation_point cexSweep .none (1, 1)
        (singletonStore { random_seed := 0 } {} {} {},
          [("A/run.ini", ⟨{ random_seed := 7 }, {}, {},
              { event_log := "X/events.log" }⟩)], 0)).2).written.filepaths =
      ({ event_log := "X/events.log" } : FilepathsRec) := by
  have hA := claim_C6 cexSweep (.int 5) (1, 1) { random_seed := 0 } {} {} {} [] 0
  have hB := claim_C6 cexSweep .none (1, 1) { random_seed := 0 } {} {} {}
    [("A/run.ini", ⟨{ random_seed := 7 }, {}, {},
        { event_log := "X/events.log" }⟩)] 0
  have hAw := hA.2.2.1 (fun h => RandomSeedArg.noConfusion h)
  exact ⟨hAw, by rw [hA.1, hAw], hA.2.1,
    hB.2.2.2 ⟨{ random_seed := 7 }, {}, {}, { event_log := "X/events.log" }⟩
      rfl (by rfl)⟩

/-- **C10.** Every `Configuration()` built with the no-argument constructor
references the same four class-level section objects (Python evaluates a
dataclass instance default once, at class definition); hence an assignment
made through one instance's `system` (or `equilibration`, `observation`,
`filepaths`) reference is observable through every other instance, and all
per-point run configurations created during a sweep alias this one shared
set of section records. -/
theorem claim_C10 :
    (∀ (sys : SystemRec) (equi : EquilibrationRec) (obs : ObservationRec)
       (fp : FilepathsRec) (f : SystemRec → SystemRec),
      getSystem (modifySystem (singletonStore sys equi obs fp)
          mkConfiguration.system f) mkConfiguration.system = f sys) ∧
    (∀ (sys : SystemRec) (equi : EquilibrationRec) (obs : ObservationRec)
       (fp : FilepathsRec) (f : EquilibrationRec → EquilibrationRec),
      getEquilibration (modifyEquilibration (singletonStore sys equi obs fp)
          mkConfiguration.equilibration f) mkConfiguration.equilibration = f equi) ∧
    (∀ (sys : SystemRec) (equi : EquilibrationRec) (obs : ObservationRec)
       (fp : FilepathsRec) (f : ObservationRec → ObservationRec),
      getObservation (modifyObservation (singletonStore sys equi obs fp)
          mkConfiguration.observation f) mkConfiguration.observation = f obs) ∧
    (∀ (sys : SystemRec) (equi : EquilibrationRec) (obs : ObservationRec)
       (fp : FilepathsRec) (f : FilepathsRec → FilepathsRec),
      getFilepaths (modifyFilepaths (singletonStore sys equi obs fp)
          mkConfiguration.filepaths f) mkConfiguration.filepaths = f fp) ∧
    (∀ (sweep : SweepConfiguration) (rs : RandomSeedArg)
       (points : List (ℚ × ℚ)) (seed0 : ℤ) (disk : Disk),
      ∀ e ∈ (create_simulations sweep rs points seed0 disk).2,
        e.run_cfg = mkConfiguration) :=
  ⟨fun _ _ _ _ _ => rfl, fun _ _ _ _ _ => rfl, fun _ _ _ _ _ => rfl,
    fun _ _ _ _ _ => rfl,
    fun sweep rs points seed0 disk e he =>
      createSimAux_run_cfg sweep rs points (initStore seed0, disk, 0) e he⟩

/-- Witness for C10: the dispatched configuration of a concrete one-point
sweep references the shared default section objects. -/
theorem claim_C10_witness :
    ((create_simulations cexSweep (.int 5) [(1, 1)] 0 []).2.get
        ⟨0, by decide⟩).run_cfg = mkConfiguration :=
  claim_C10.2.2.2.2 cexSweep (.int 5) [(1, 1)] 0 [] _ (List.get_mem _ _ _)

/-! ## Helper lemmas: decimal digits and numeric round-trips (claim C5) -/

theorem digitVal_digitChar : ∀ d < 10, digitVal (digitChar d) = d := by decide

theorem isDigit_digitChar : ∀ d < 10, (digitChar d).isDigit = true := by decide

theorem digitChar_props : ∀ d < 10, isPySpace (digitChar d) = false ∧
    digitChar d ≠ '%' ∧ digitChar d ≠ '-' ∧ digitChar d ≠ '+' ∧
    digitChar d ≠ '.' := by decide

theorem natFromDigits_append (l : List Char) (c : Char) :
    natFromDigits (l ++ [c]) = natFromDigits l * 10 + digitVal c := by
  unfold natFromDigits
  rw [List.foldl_append]
  rfl

theorem natFromDigits_natToCharsAux :
    ∀ (fuel n : ℕ), n ≤ fuel → natFromDigits (natToCharsAux fuel n) = n := by
  intro fuel
  induction fuel with
  | zero =>
    intro n hn
    interval_cases n
    rfl
  | succ fuel ih =>
    intro n hn
    unfold natToCharsAux
    split_ifs with h0
    · rw [h0]; rfl
    · rw [natFromDigits_append, ih (n / 10) (by omega),
        digitVal_digitChar (n % 10) (by omega)]
      omega

theorem natFromDigits_natToChars (n : ℕ) :
    natFromDigits (natToChars n) = n := by
  unfold natToChars
  split_ifs with h0
  · rw [h0]; rfl
  · exact natFromDigits_natToCharsAux n n (le_refl n)

theorem natToCharsAux_mem :
    ∀ (fuel n : ℕ), ∀ c ∈ natToCharsAux fuel n, ∃ d, d < 10 ∧ c = digitChar d := by
  intro fuel
  induction fuel with
  | zero => intro n c hc; exact absurd hc (by simp [natToCharsAux])
  | succ fuel ih =>
    intro n c hc
    unfold natToCharsAux at hc
    split_ifs at hc with h0
    · exact absurd hc (by simp)
    · rcases List.mem_append.mp hc with hc | hc
      · exact ih (n / 10) c hc
      · rw [List.mem_singleton.mp hc]
        exact ⟨n % 10, by omega, rfl⟩

theorem natToChars_mem (n : ℕ) :
    ∀ c ∈ natToChars n, ∃ d, d < 10 ∧ c = digitChar d := by
  intro c hc
  unfold natToChars at hc
  split_ifs at hc with h0
  · rw [List.mem_singleton.mp hc]
    exact ⟨0, by omega, rfl⟩
  · exact natToCharsAux_mem n n c hc

theorem natToChars_ne_nil (n : ℕ) : natToChars n ≠ [] := by
  unfold natToChars
  split_ifs with h0
  · simp
  · cases n with
    | zero => exact absurd rfl h0
    | succ m => simp [natToCharsAux, h0]

theorem natToCharsAux_length :
    ∀ (fuel n k : ℕ), n < 10 ^ k → (natToCharsAux fuel n).length ≤ k := by
  intro fuel
  induction fuel with
  | zero => intro n k _; simp [natToCharsAux]
  | succ fuel ih =>
    intro n k hk
    unfold natToCharsAux
    split_ifs with h0
    · simp
    · have hk1 : 1 ≤ k := by
        by_contra hc
        have : k = 0 := by omega
        rw [this] at hk
        simp at hk
        omega
      have hdiv : n / 10 < 10 ^ (k - 1) := by
        have hpow : 10 ^ k = 10 * 10 ^ (k - 1) := by
          rw [← pow_succ']
          congr 1
          omega
        rw [hpow] at hk
        omega
      have := ih (n / 10) (k - 1) hdiv
      rw [List.length_append]
      simp only [List.length_singleton]
      omega

theorem natToChars_length (n k : ℕ) (hk : 0 < k) (hn : n < 10 ^ k) :
    (natToChars n).length ≤ k := by
  unfold natToChars
  split_ifs with h0
  · simpa using hk
  · exact natToCharsAux_length n n k hn

theorem stripChars_eq_self {s : List Char}
    (h : ∀ c ∈ s, isPySpace c = false) : stripChars s = s := by
  have hdrop : ∀ (l : List Char), (∀ c ∈ l, isPySpace c = false) →
      l.dropWhile isPySpace = l := by
    intro l hl
    cases l with
    | nil => rfl
    | cons c cs =>
      rw [List.dropWhile_cons, hl c (List.mem_cons_self c cs)]
      simp
  unfold stripChars
  rw [hdrop s h, hdrop s.reverse (fun c hc => h c (List.mem_reverse.mp hc)),
    List.reverse_reverse]

theorem splitFirst_single_append (c : Char) (xs ys : List Char)
    (h : ∀ x ∈ xs, x ≠ c) : splitFirst [c] (xs ++ c :: ys) = some (xs, ys) := by
  induction xs with
  | nil => simp [splitFirst, List.isPrefixOf]
  | cons x xs ih =>
    have hx : x ≠ c := h x (List.mem_cons_self x xs)
    have hpre : ¬ (([c].isPrefixOf (x :: (xs ++ c :: ys))) = true) := by
      simp [List.isPrefixOf]
      exact fun hcx => hx hcx.symm
    show splitFirst [c] (x :: (xs ++ c :: ys)) = _
    unfold splitFirst
    rw [if_neg hpre, ih (fun y hy => h y (List.mem_cons_of_mem x hy))]

theorem natToChars_all_digit (n : ℕ) : (natToChars n).all Char.isDigit = true := by
  rw [List.all_eq_true]
  intro c hc
  obtain ⟨d, hd, rfl⟩ := natToChars_mem n c hc
  exact isDigit_digitChar d hd

theorem natToChars_head (n : ℕ) :
    ∃ d ds, d < 10 ∧ natToChars n = digitChar d :: ds := by
  cases hh : natToChars n with
  | nil => exact absurd hh (natToChars_ne_nil n)
  | cons c ds =>
    obtain ⟨d, hd, hcd⟩ := natToChars_mem n c (by rw [hh]; exact List.mem_cons_self _ _)
    exact ⟨d, ds, hd, by rw [hcd]⟩

theorem intToChars_no_space (i : ℤ) :
    ∀ c ∈ intToChars i, isPySpace c = false := by
  intro c hc
  unfold intToChars at hc
  split_ifs at hc with hneg
  · rcases List.mem_cons.mp hc with hc | hc
    · rw [hc]; rfl
    · obtain ⟨d, hd, rfl⟩ := natToChars_mem _ c hc
      exact (digitChar_props d hd).1
  · obtain ⟨d, hd, rfl⟩ := natToChars_mem _ c hc
    exact (digitChar_props d hd).1

/-- `int(str(i)) == i`: the stringified integer parses back exactly,
including negative values and zero. -/
theorem pyIntOfChars_intToChars (i : ℤ) :
    pyIntOfChars (intToChars i) = some i := by
  unfold pyIntOfChars
  rw [stripChars_eq_self (intToChars_no_space i)]
  by_cases hneg : i < 0
  · rw [intToChars, if_pos hneg]
    have hne := natToChars_ne_nil i.natAbs
    have hall := natToChars_all_digit i.natAbs
    simp only [hne, hall, ne_eq, not_false_eq_true, and_self, if_pos, if_true]
    simp only [natFromDigits_natToChars, Option.some.injEq]
    omega
  · rw [intToChars, if_neg hneg]
    obtain ⟨d, ds, hd, hds⟩ := natToChars_head i.natAbs
    rw [hds]
    have h1 := (digitChar_props d hd).2.2.1
    have h2 := (digitChar_props d hd).2.2.2.1
    have hall : (digitChar d :: ds).all Char.isDigit = true := by
      rw [← hds]; exact natToChars_all_digit _
    simp only [h1, h2, hall, if_false, if_true, ite_false, ite_true,
      if_neg, not_false_eq_true]
    rw [← hds]
    simp only [natFromDigits_natToChars, Option.some.injEq]
    omega

theorem natFromDigits_cons_zero (l : List Char) :
    natFromDigits ('0' :: l) = natFromDigits l := by
  unfold natFromDigits
  rw [List.foldl_cons]
  congr 1

theorem natFromDigits_replicate_zero (m : ℕ) (l : List Char) :
    natFromDigits (List.replicate m '0' ++ l) = natFromDigits l := by
  induction m with
  | zero => rfl
  | succ m ih =>
    rw [List.replicate_succ, List.cons_append, natFromDigits_cons_zero]
    exact ih

/-- Every character of `floatToChars q` is a digit, `'-'`, or `'.'`. -/
theorem floatToChars_mem (q : ℚ) :
    ∀ c ∈ floatToChars q, (∃ d, d < 10 ∧ c = digitChar d) ∨ c = '-' ∨ c = '.' := by
  intro c hc
  unfold floatToChars at hc
  dsimp only at hc
  rcases List.mem_append.mp hc with hc | hc
  · rcases List.mem_append.mp hc with hc | hc
    · split_ifs at hc
      · rw [List.mem_singleton.mp hc]
        exact Or.inr (Or.inl rfl)
      · exact absurd hc (by simp)
    · exact Or.inl (natToChars_mem _ c hc)
  · rcases List.mem_cons.mp hc with hc | hc
    · exact Or.inr (Or.inr hc)
    · rcases List.mem_append.mp hc with hc | hc
      · rw [List.eq_of_mem_replicate hc]
        exact Or.inl ⟨0, by omega, rfl⟩
      · exact Or.inl (natToChars_mem _ c hc)

theorem floatToChars_no_space (q : ℚ) :
    ∀ c ∈ floatToChars q, isPySpace c = false := by
  intro c hc
  rcases floatToChars_mem q c hc with ⟨d, hd, rfl⟩ | rfl | rfl
  · exact (digitChar_props d hd).1
  · rfl
  · rfl

theorem floatToChars_no_percent (q : ℚ) :
    ∀ c ∈ floatToChars q, c ≠ '%' := by
  intro c hc
  rcases floatToChars_mem q c hc with ⟨d, hd, rfl⟩ | rfl | rfl
  · exact (digitChar_props d hd).2.1
  · decide
  · decide

theorem intToChars_no_percent (i : ℤ) : ∀ c ∈ intToChars i, c ≠ '%' := by
  intro c hc
  unfold intToChars at hc
  split_ifs at hc
  · rcases List.mem_cons.mp hc with hc | hc
    · rw [hc]; decide
    · obtain ⟨d, hd, rfl⟩ := natToChars_mem _ c hc
      exact (digitChar_props d hd).2.1
  · obtain ⟨d, hd, rfl⟩ := natToChars_mem _ c hc
    exact (digitChar_props d hd).2.1

theorem pyFloatMagnitude_value (ip fp k : ℕ) (hk : 0 < k) (hfp : fp < 10 ^ k) :
    pyFloatMagnitude (natToChars ip ++ '.' ::
        (List.replicate (k - (natToChars fp).length) '0' ++ natToChars fp)) =
      some ((ip : ℚ) + (fp : ℚ) / (10 : ℚ) ^ k) := by
  have hnodot : ∀ x ∈ natToChars ip, x ≠ '.' := by
    intro x hx
    obtain ⟨d, hd, rfl⟩ := natToChars_mem _ x hx
    exact (digitChar_props d hd).2.2.2.2
  have hfpall : (List.replicate (k - (natToChars fp).length) '0' ++
      natToChars fp).all Char.isDigit = true := by
    rw [List.all_eq_true]
    intro c hc
    rcases List.mem_append.mp hc with hc | hc
    · rw [List.eq_of_mem_replicate hc]; rfl
    · obtain ⟨d, hd, rfl⟩ := natToChars_mem _ c hc
      exact isDigit_digitChar d hd
  have hlen : (List.replicate (k - (natToChars fp).length) '0' ++
      natToChars fp).length = k := by
    rw [List.length_append, List.length_replicate]
    have := natToChars_length fp k hk hfp
    omega
  unfold pyFloatMagnitude
  simp only [splitFirst_single_append '.' _ _ hnodot]
  rw [if_pos ⟨Or.inl (natToChars_ne_nil ip), natToChars_all_digit ip, hfpall⟩]
  rw [natFromDigits_natToChars, natFromDigits_replicate_zero,
    natFromDigits_natToChars, hlen]

theorem floatToChars_eq (q : ℚ) :
    floatToChars q =
      (if q.num < 0 then ['-'] else []) ++
        natToChars (q.num.natAbs * floatMult q / 10 ^ floatK q) ++
        '.' :: (List.replicate
            (floatK q -
              (natToChars (q.num.natAbs * floatMult q % 10 ^ floatK q)).length) '0' ++
          natToChars (q.num.natAbs * floatMult q % 10 ^ floatK q)) := rfl

theorem pyFloatOfChars_cons_neg (ip fp k : ℕ) (hk : 0 < k) (hfp : fp < 10 ^ k) :
    pyFloatOfChars ('-' :: (natToChars ip ++ '.' ::
        (List.replicate (k - (natToChars fp).length) '0' ++ natToChars fp))) =
      some (-((ip : ℚ) + (fp : ℚ) / (10 : ℚ) ^ k)) := by
  have hnospace : ∀ c ∈ '-' :: (natToChars ip ++ '.' ::
      (List.replicate (k - (natToChars fp).length) '0' ++ natToChars fp)),
      isPySpace c = false := by
    intro c hc
    rcases List.mem_cons.mp hc with hc | hc
    · rw [hc]; rfl
    · rcases List.mem_append.mp hc with hc | hc
      · obtain ⟨d, hd, rfl⟩ := natToChars_mem _ c hc
        exact (digitChar_props d hd).1
      · rcases List.mem_cons.mp hc with hc | hc
        · rw [hc]; rfl
        · rcases List.mem_append.mp hc with hc | hc
          · rw [List.eq_of_mem_replicate hc]; rfl
          · obtain ⟨d, hd, rfl⟩ := natToChars_mem _ c hc
            exact (digitChar_props d hd).1
  unfold pyFloatOfChars
  rw [stripChars_eq_self hnospace]
  show (pyFloatMagnitude (natToChars ip ++ '.' ::
      (List.replicate (k - (natToChars fp).length) '0' ++ natToChars fp))).map
      Neg.neg = _
  rw [pyFloatMagnitude_value ip fp k hk hfp]
  rfl

theorem pyFloatOfChars_cons_pos (ip fp k : ℕ) (hk : 0 < k) (hfp : fp < 10 ^ k) :
    pyFloatOfChars (natToChars ip ++ '.' ::
        (List.replicate (k - (natToChars fp).length) '0' ++ natToChars fp)) =
      some ((ip : ℚ) + (fp : ℚ) / (10 : ℚ) ^ k) := by
  have hnospace : ∀ c ∈ natToChars ip ++ '.' ::
      (List.replicate (k - (natToChars fp).length) '0' ++ natToChars fp),
      isPySpace c = false := by
    intro c hc
    rcases List.mem_append.mp hc with hc | hc
    · obtain ⟨d, hd, rfl⟩ := natToChars_mem _ c hc
      exact (digitChar_props d hd).1
    · rcases List.mem_cons.mp hc with hc | hc
      · rw [hc]; rfl
      · rcases List.mem_append.mp hc with hc | hc
        · rw [List.eq_of_mem_replicate hc]; rfl
        · obtain ⟨d, hd, rfl⟩ := natToChars_mem _ c hc
          exact (digitChar_props d hd).1
  obtain ⟨d, ds, hd, hds⟩ := natToChars_head ip
  unfold pyFloatOfChars
  rw [stripChars_eq_self hnospace, hds, List.cons_append]
  show (if digitChar d = '-' then
      (pyFloatMagnitude (ds ++ '.' ::
        (List.replicate (k - (natToChars fp).length) '0' ++ natToChars fp))).map
        Neg.neg
    else if digitChar d = '+' then
      pyFloatMagnitude (ds ++ '.' ::
        (List.replicate (k - (natToChars fp).length) '0' ++ natToChars fp))
    else
      pyFloatMagnitude (digitChar d :: (ds ++ '.' ::
        (List.replicate (k - (natToChars fp).length) '0' ++ natToChars fp)))) = _
  rw [if_neg (digitChar_props d hd).2.2.1, if_neg (digitChar_props d hd).2.2.2.1,
    ← List.cons_append, ← hds]
  exact pyFloatMagnitude_value ip fp k hk hfp

/-- `float(str(x)) == x`: the exact-decimal string of a decimal-representable
rational parses back exactly, including negative values and zero. -/
theorem pyFloatOfChars_floatToChars (q : ℚ) (h : decimalRep q) :
    pyFloatOfChars (floatToChars q) = some q := by
  have hKpos : 0 < floatK q := by unfold floatK; omega
  have hfp : q.num.natAbs * floatMult q % 10 ^ floatK q < 10 ^ floatK q :=
    Nat.mod_lt _ (by positivity)
  have hMden : floatMult q * q.den = 10 ^ floatK q := by
    have haK : powCount 2 q.den ≤ floatK q := by unfold floatK; omega
    have hbK : powCount 5 q.den ≤ floatK q := by unfold floatK; omega
    unfold floatMult
    calc 2 ^ (floatK q - powCount 2 q.den) * 5 ^ (floatK q - powCount 5 q.den) * q.den
        = 2 ^ (floatK q - powCount 2 q.den) * 5 ^ (floatK q - powCount 5 q.den) *
          (2 ^ powCount 2 q.den * 5 ^ powCount 5 q.den) := by rw [← h]
      _ = (2 ^ (floatK q - powCount 2 q.den) * 2 ^ powCount 2 q.den) *
          (5 ^ (floatK q - powCount 5 q.den) * 5 ^ powCount 5 q.den) := by ring
      _ = 2 ^ floatK q * 5 ^ floatK q := by
          rw [← pow_add, ← pow_add, Nat.sub_add_cancel haK, Nat.sub_add_cancel hbK]
      _ = 10 ^ floatK q := by rw [← Nat.mul_pow]
  have hM0 : (floatMult q : ℚ) ≠ 0 := by
    unfold floatMult
    positivity
  have hS : ((q.num.natAbs * floatMult q : ℕ) : ℚ) / ((10 : ℚ)) ^ floatK q =
      (q.num.natAbs : ℚ) / (q.den : ℚ) := by
    rw [show ((10 : ℚ)) ^ floatK q = ((10 ^ floatK q : ℕ) : ℚ) by push_cast; ring]
    rw [← hMden]
    push_cast
    rw [mul_comm (floatMult q : ℚ) (q.den : ℚ)]
    exact mul_div_mul_right _ _ hM0
  have hnat := Nat.div_add_mod (q.num.natAbs * floatMult q) (10 ^ floatK q)
  have hval : ((q.num.natAbs * floatMult q / 10 ^ floatK q : ℕ) : ℚ) +
      ((q.num.natAbs * floatMult q % 10 ^ floatK q : ℕ) : ℚ) / (10 : ℚ) ^ floatK q =
      (q.num.natAbs : ℚ) / (q.den : ℚ) := by
    have h10 : ((10 : ℚ)) ^ floatK q ≠ 0 := by positivity
    rw [← hS]
    have hcast := congrArg (fun n : ℕ => (n : ℚ)) hnat
    push_cast at hcast
    field_simp
    linarith
  rw [show pyFloatOfChars (floatToChars q) =
      pyFloatOfChars ((if q.num < 0 then ['-'] else []) ++
        natToChars (q.num.natAbs * floatMult q / 10 ^ floatK q) ++
        '.' :: (List.replicate
            (floatK q -
              (natToChars (q.num.natAbs * floatMult q % 10 ^ floatK q)).length) '0' ++
          natToChars (q.num.natAbs * floatMult q % 10 ^ floatK q)))
      from by rw [← floatToChars_eq]]
  by_cases hneg : q.num < 0
  · rw [if_pos hneg]
    simp only [List.singleton_append, List.cons_append, List.nil_append]
    rw [pyFloatOfChars_cons_neg _ _ _ hKpos hfp, hval]
    have habs : (q.num.natAbs : ℚ) = -(q.num : ℚ) := by
      rw [Int.cast_natAbs, Int.cast_abs]
      exact abs_of_neg (by exact_mod_cast hneg)
    rw [habs, neg_div, neg_neg, Rat.num_div_den]
  · rw [if_neg hneg]
    simp only [List.nil_append]
    rw [pyFloatOfChars_cons_pos _ _ _ hKpos hfp, hval]
    have habs : (q.num.natAbs : ℚ) = (q.num : ℚ) := by
      rw [Int.cast_natAbs, Int.cast_abs]
      exact abs_of_nonneg (by exact_mod_cast not_lt.mp hneg)
    rw [habs, Rat.num_div_den]

theorem cpGetFloat_floatToChars (q : ℚ) (h : decimalRep q) :
    cpGetFloat (fileRoundTrip (String.mk (floatToChars q))) = some q := by
  have hall : (floatToChars q).all (fun c => c ≠ '%') = true := by
    rw [List.all_eq_true]
    intro c hc
    simpa using floatToChars_no_percent q c hc
  show ((interpolate (stripChars (floatToChars q))).bind pyFloatOfChars) = some q
  rw [stripChars_eq_self (floatToChars_no_space q)]
  unfold interpolate
  rw [if_pos hall]
  show pyFloatOfChars (floatToChars q) = some q
  exact pyFloatOfChars_floatToChars q h

theorem cpGetInt_intToChars (i : ℤ) :
    cpGetInt (fileRoundTrip (String.mk (intToChars i))) = some i := by
  have hall : (intToChars i).all (fun c => c ≠ '%') = true := by
    rw [List.all_eq_true]
    intro c hc
    simpa using intToChars_no_percent i c hc
  show ((interpolate (stripChars (intToChars i))).bind pyIntOfChars) = some i
  rw [stripChars_eq_self (intToChars_no_space i)]
  unfold interpolate
  rw [if_pos hall]
  show pyIntOfChars (intToChars i) = some i
  exact pyIntOfChars_intToChars i

theorem cpGetStr_valid (s : String) (h : validConfigStr s) :
    cpGetStr (fileRoundTrip s) = some s := by
  obtain ⟨hstrip, hpct⟩ := h
  show ((interpolate (stripChars s.data)).map String.mk) = some s
  rw [hstrip]
  unfold interpolate
  rw [if_pos hpct]
  rfl

theorem readSystemSection_roundtrip (r0 r : SystemRec)
    (h1 : decimalRep r.temperature) (h2 : decimalRep r.density)
    (h3 : decimalRep r.cutoff_distance) (h4 : decimalRep r.time_delta) :
    readSystemSection r0
      ((writeSystemSection r).map fun kv => (kv.1, fileRoundTrip kv.2)) =
      some r := by
  have ht := cpGetFloat_floatToChars r.temperature h1
  have hd := cpGetFloat_floatToChars r.density h2
  have hc := cpGetFloat_floatToChars r.cutoff_distance h3
  have htd := cpGetFloat_floatToChars r.time_delta h4
  have hp := cpGetInt_intToChars r.particle_count
  have hr := cpGetInt_intToChars r.random_seed
  simp [readSystemSection, writeSystemSection, findVal, ht, hd, hc, htd, hp, hr]

theorem readEquilibrationSection_roundtrip (r0 r : EquilibrationRec)
    (h1 : validConfigStr r.name) (h2 : decimalRep r.tolerance) :
    readEquilibrationSection r0
      ((writeEquilibrationSection r).map fun kv => (kv.1, fileRoundTrip kv.2)) =
      some r := by
  have hn := cpGetStr_valid r.name h1
  have ht := cpGetFloat_floatToChars r.tolerance h2
  have hs := cpGetInt_intToChars r.sample_size
  have ha := cpGetInt_intToChars r.adjustment_interval
  have hst := cpGetInt_intToChars r.steady_state_time
  have hto := cpGetInt_intToChars r.timeout
  simp [readEquilibrationSection, writeEquilibrationSection, findVal,
    hn, ht, hs, ha, hst, hto]

theorem readObservationSection_roundtrip (r0 r : ObservationRec)
    (h1 : validConfigStr r.name) (h2 : decimalRep r.tolerance) :
    readObservationSection r0
      ((writeObservationSection r).map fun kv => (kv.1, fileRoundTrip kv.2)) =
      some r := by
  have hn := cpGetStr_valid r.name h1
  have ht := cpGetFloat_floatToChars r.tolerance h2
  have hs := cpGetInt_intToChars r.sample_size
  have hi := cpGetInt_intToChars r.observation_interval
  have hc := cpGetInt_intToChars r.observation_count
  simp [readObservationSection, writeObservationSection, findVal,
    hn, ht, hs, hi, hc]

theorem readFilepathsSection_roundtrip (r0 r : FilepathsRec)
    (h1 : validConfigStr r.event_log) (h2 : validConfigStr r.thermodynamic_log)
    (h3 : validConfigStr r.observation_log) (h4 : validConfigStr r.snapshot_log) :
    readFilepathsSection r0
      ((writeFilepathsSection r).map fun kv => (kv.1, fileRoundTrip kv.2)) =
      some r := by
  have he := cpGetStr_valid r.event_log h1
  have ht := cpGetStr_valid r.thermodynamic_log h2
  have ho := cpGetStr_valid r.observation_log h3
  have hs := cpGetStr_valid r.snapshot_log h4
  simp [readFilepathsSection, writeFilepathsSection, findVal, he, ht, ho, hs]

/-- **C5.** Round-trip law for the config text format: for every config
record whose float-typed fields are decimal-representable (true of every
Python float value, including negative and zero) and whose str-typed
fields are configparser-transparent (single-line, trimmed, `'%'`-free),
`Configuration.write` followed by `Configuration.from_file`'s read
reproduces every field of the original exactly, regardless of the base
values the fresh `Configuration()` starts from. -/
theorem claim_C5 (base c : ConfigData)
    (hs1 : decimalRep c.system.temperature)
    (hs2 : decimalRep c.system.density)
    (hs3 : decimalRep c.system.cutoff_distance)
    (hs4 : decimalRep c.system.time_delta)
    (he1 : validConfigStr c.equilibration.name)
    (he2 : decimalRep c.equilibration.tolerance)
    (ho1 : validConfigStr c.observation.name)
    (ho2 : decimalRep c.observation.tolerance)
    (hf1 : validConfigStr c.filepaths.event_log)
    (hf2 : validConfigStr c.filepaths.thermodynamic_log)
    (hf3 : validConfigStr c.filepaths.observation_log)
    (hf4 : validConfigStr c.filepaths.snapshot_log) :
    readConfigData base (writeConfigData c) = some c := by
  have hsys := readSystemSection_roundtrip base.system c.system hs1 hs2 hs3 hs4
  have heq := readEquilibrationSection_roundtrip base.equilibration
    c.equilibration he1 he2
  have hob := readObservationSection_roundtrip base.observation
    c.observation ho1 ho2
  have hfp := readFilepathsSection_roundtrip base.filepaths
    c.filepaths hf1 hf2 hf3 hf4
  simp [readConfigData, writeConfigData, List.find?, hsys, heq, hob, hfp]

/-- Concrete instance of the C5 round-trip: a config with negative and
zero numeric values and the default phase names and filenames. -/
theorem claim_C5_witness :
    decimalRep ((-3 : ℚ)) ∧ decimalRep ((0 : ℚ)) ∧
    readConfigData ⟨{ random_seed := 0 }, {}, {}, {}⟩
      (writeConfigData
        { system := { temperature := -3, density := 0, cutoff_distance := 3,
                      time_delta := 1, random_seed := -7 },
          equilibration := { tolerance := -2 },
          observation := { tolerance := 0 },
          filepaths := { event_log := "events.log" } }) =
      some
        { system := { temperature := -3, density := 0, cutoff_distance := 3,
                      time_delta := 1, random_seed := -7 },
          equilibration := { tolerance := -2 },
          observation := { tolerance := 0 },
          filepaths := { event_log := "events.log" } } :=
  ⟨by decide, by decide,
    claim_C5 ⟨{ random_seed := 0 }, {}, {}, {}⟩ _
      (by decide) (by decide) (by decide) (by decide)
      (by decide) (by decide) (by decide) (by decide)
      (by decide) (by decide) (by decide) (by decide)⟩

end LJ
